import Mathlib

/-!
# Verification of the projectX context retrieval and agent pipeline core

This file is a shallow embedding, in Lean 4, of the core of the projectX
messaging backend:

* `back/ai/secure_rag_engine.py` (class `SecureTelegramRAGEngine`):
  message ingestion, scoped similarity search, period summaries,
  retention sweep, collection statistics, chat-history sync;
* `back/ai/rag_pipeline.py` (`build_context_for_ai`, `_detect_time_range`):
  the context assembler;
* `back/agents/chief_agent.py` (`ChiefAgent.execute`): the sequential
  multi-agent orchestrator.

Modelling conventions:

* The external vector store (Qdrant) is embedded as a list of points with
  payloads; its documented semantics (`upsert` replaces the point with the
  same id, `search`/`scroll` return only points satisfying every condition
  of the `must` filter, a field condition on a missing payload key does not
  match) are implemented directly.
* The external embedding provider, the similarity scoring of the vector
  store, and the completion provider are opaque: they are passed to each
  operation as explicit function arguments and are universally quantified
  in the theorems.
* Similarity scores and thresholds are rationals (`ℚ`).  The Python code
  compares `float`s; the comparisons performed (`score > 0.85` and so on)
  are exact in both representations at the inputs considered here.
* `datetime.now()` is passed explicitly as a `PyDateTime` argument.
* Python dictionaries (message dicts, payloads) are association lists with
  distinct keys, looked up by first match.
* Python exceptions are modelled with `Except`/`Option` where they can
  occur in the modelled code paths.
* Hashes are real: SHA-1 and SHA-256 are implemented on byte lists
  (`Nat`s below 256), UTF-8 encoding included, and `uuid.uuid5` is built
  on SHA-1 exactly as in RFC 4122.
-/

set_option maxRecDepth 10000
set_option maxHeartbeats 1000000

namespace ProjectX

/-! ## Python-style values, dictionaries, and the Qdrant point model -/

/-- A JSON-like payload/dict value as stored in Qdrant payloads and
Python message dicts. -/
inductive PVal where
  | str (s : String)
  | int (n : Int)
  | bool (b : Bool)
  | strList (l : List String)
  | null
  deriving DecidableEq, Repr

/-- A Python dict with string keys (used for message dicts and Qdrant
payloads).  Keys are unique; lookup is by first match. -/
abbrev PyDict := List (String × PVal)

/-- `d.get(k)`: first-match lookup. -/
def dictGet (d : PyDict) (k : String) : Option PVal :=
  (d.find? (fun kv => kv.1 = k)).map (·.2)

/-- `d.get(k, default)` for string values; non-string values fall back to
the default (the modelled code only reads keys it wrote with the matching
type). -/
def dictGetStr (d : PyDict) (k : String) (dflt : String) : String :=
  match dictGet d k with
  | some (.str s) => s
  | _ => dflt

/-- `d.get(k, default)` for integer values. -/
def dictGetInt (d : PyDict) (k : String) (dflt : Int) : Int :=
  match dictGet d k with
  | some (.int n) => n
  | _ => dflt

/-- `d.get(k, default)` for boolean values. -/
def dictGetBool (d : PyDict) (k : String) (dflt : Bool) : Bool :=
  match dictGet d k with
  | some (.bool b) => b
  | _ => dflt

/-- `d[k] = v`: replace the value in place if the key exists (keeping its
position, as Python dicts do), otherwise append the new key. -/
def dictSet (d : PyDict) (k : String) (v : PVal) : PyDict :=
  if d.any (fun kv => kv.1 = k) then
    d.map (fun kv => if kv.1 = k then (k, v) else kv)
  else
    d ++ [(k, v)]

/-! Structural (kernel-computable) counterparts of the Python string
operations the engine uses.  They work on the character list of the
string, so concrete runs reduce inside the kernel. -/

/-- Python `s.strip()`. -/
def pyStrip (s : String) : String :=
  String.mk (((s.data.dropWhile Char.isWhitespace).reverse.dropWhile
    Char.isWhitespace).reverse)

/-- Python `s[:n]`. -/
def pyTake (s : String) (n : Nat) : String := String.mk (s.data.take n)

/-- Python `c in s` for a single character. -/
def pyContainsChar (s : String) (c : Char) : Bool := s.data.contains c

/-- Split a character list at every occurrence of `c`. -/
def splitCharAux (c : Char) : List Char → List (List Char)
  | [] => [[]]
  | a :: tl =>
      if a = c then [] :: splitCharAux c tl
      else
        match splitCharAux c tl with
        | h :: t => (a :: h) :: t
        | [] => [[a]]

/-- Python `s.split(c)` for a one-character separator. -/
def pySplitChar (s : String) (c : Char) : List String :=
  (splitCharAux c s.data).map String.mk

/-- Python `s.replace(c, r)` for one-character pattern and replacement. -/
def pyReplaceChar (s : String) (c r : Char) : String :=
  String.mk (s.data.map (fun x => if x = c then r else x))

/-- Python `sep.join(l)`. -/
def pyJoin (sep : String) : List String → String
  | [] => ""
  | a :: as => as.foldl (fun acc s => acc ++ sep ++ s) a

/-- One stored point of a Qdrant collection. -/
structure QPoint where
  id : String
  vec : List ℚ
  payload : PyDict
  deriving DecidableEq, Repr

/-- A Qdrant collection is the list of its points. -/
abbrev QCollection := List QPoint

/-- One `must` condition of a Qdrant filter, as used by the engine:
exact match, membership (`MatchAny`), or an upper-bound range
(`Range(lt=...)`). -/
inductive FCond where
  | matchVal (key : String) (v : PVal)
  | matchAny (key : String) (vs : List String)
  | rangeLt (key : String) (bound : String)
  deriving DecidableEq, Repr

/-- A Qdrant filter: the conjunction of its `must` conditions. -/
structure QFilter where
  must : List FCond
  deriving DecidableEq, Repr

/-- Evaluate one condition against a payload.  A condition on a key the
payload does not carry never matches (Qdrant semantics). -/
def evalCond (p : PyDict) : FCond → Bool
  | .matchVal k v => decide (dictGet p k = some v)
  | .matchAny k vs =>
      match dictGet p k with
      | some (.str s) => vs.contains s
      | _ => false
  | .rangeLt k bound =>
      match dictGet p k with
      | some (.str s) => decide (s < bound)
      | _ => false

/-- A filter holds when every `must` condition holds. -/
def evalFilter (f : QFilter) (p : PyDict) : Bool :=
  f.must.all (evalCond p)

/-- Insert into a list sorted by the boolean comparator `le`. -/
def insertSorted (le : α → α → Bool) (x : α) : List α → List α
  | [] => [x]
  | y :: ys => if le x y then x :: y :: ys else y :: insertSorted le x ys

/-- Sort by the boolean comparator `le` (insertion sort; only the
membership of the result matters for the theorems below). -/
def sortByBool (le : α → α → Bool) : List α → List α
  | [] => []
  | x :: xs => insertSorted le x (sortByBool le xs)

/-- One scored search hit, as returned by Qdrant `search`. -/
structure ScoredPoint where
  id : String
  score : ℚ
  payload : PyDict
  deriving DecidableEq, Repr

/-- Qdrant `search`: keep the points that satisfy the filter and whose
similarity to the query vector reaches the score threshold, rank by
descending score, and return at most `limit` hits.  The similarity
function `sim` belongs to the external ANN index and is a parameter. -/
def qdrantSearch (col : QCollection) (queryVec : List ℚ)
    (sim : List ℚ → List ℚ → ℚ) (f : QFilter) (limit : Nat)
    (threshold : ℚ) : List ScoredPoint :=
  let kept := col.filter
    (fun p => evalFilter f p.payload && decide (threshold ≤ sim queryVec p.vec))
  let ranked := sortByBool (fun a b => decide (sim queryVec b.vec ≤ sim queryVec a.vec)) kept
  (ranked.map (fun p => ⟨p.id, sim queryVec p.vec, p.payload⟩)).take limit

/-- Qdrant `scroll`: the points satisfying the filter, up to `limit`. -/
def qdrantScroll (col : QCollection) (f : QFilter) (limit : Nat) : List QPoint :=
  (col.filter (fun p => evalFilter f p.payload)).take limit

/-- Qdrant `upsert` of a single point: replace the point carrying the same
id, or append the point if the id is new. -/
def qdrantUpsert (col : QCollection) (p : QPoint) : QCollection :=
  if col.any (fun q => q.id = p.id) then
    col.map (fun q => if q.id = p.id then p else q)
  else
    col ++ [p]

/-- Qdrant `delete` with a points-id selector. -/
def qdrantDeleteIds (col : QCollection) (ids : List String) : QCollection :=
  col.filter (fun p => ¬ ids.contains p.id)

/-- Qdrant `delete` with a filter selector. -/
def qdrantDeleteFilter (col : QCollection) (f : QFilter) : QCollection :=
  col.filter (fun p => ¬ evalFilter f p.payload)

/-! ## Bytes and hashes

`hashlib.sha256`, `hashlib.sha1` and `uuid.uuid5` are implemented on byte
lists (naturals below 256, wrapped with explicit `% 2^32` arithmetic), with
UTF-8 encoding of strings, exactly as the Python standard library computes
them. -/

/-- UTF-8 encoding of one character. -/
def utf8Bytes (c : Char) : List Nat :=
  let n := c.toNat
  if n < 128 then [n]
  else if n < 2048 then [192 + n / 64, 128 + n % 64]
  else if n < 65536 then
    [224 + n / 4096, 128 + n / 64 % 64, 128 + n % 64]
  else
    [240 + n / 262144, 128 + n / 4096 % 64, 128 + n / 64 % 64, 128 + n % 64]

/-- `s.encode()`: UTF-8 bytes of a string. -/
def strUtf8 (s : String) : List Nat :=
  s.data.foldr (fun c acc => utf8Bytes c ++ acc) []

/-- Truncation to 32 bits. -/
def m32 (n : Nat) : Nat := n % 4294967296

/-- 32-bit left rotation. -/
def rotl32 (n k : Nat) : Nat :=
  m32 (Nat.shiftLeft n k) ||| Nat.shiftRight n (32 - k)

/-- 32-bit right rotation. -/
def rotr32 (n k : Nat) : Nat :=
  m32 (Nat.shiftRight n k ||| Nat.shiftLeft n (32 - k))

/-- Big-endian byte representation of `n` on `k` bytes. -/
def beBytes (k n : Nat) : List Nat :=
  (List.range k).map (fun i => n / 256 ^ (k - 1 - i) % 256)

/-- Merkle–Damgård padding shared by SHA-1 and SHA-256: append `128`,
zero bytes up to 56 mod 64, then the bit length on 8 bytes. -/
def shaPad (bs : List Nat) : List Nat :=
  let L := bs.length
  bs ++ [128] ++ List.replicate ((119 - L % 64) % 64) 0 ++ beBytes 8 (8 * L)

/-- Split a padded message into 64-byte blocks. -/
def shaBlocks (l : List Nat) : List (List Nat) :=
  (List.range (l.length / 64)).map (fun i => (l.drop (64 * i)).take 64)

/-- The sixteen 32-bit big-endian words of one block. -/
def blockWords (b : List Nat) : List Nat :=
  (List.range 16).map (fun i =>
    b.getD (4 * i) 0 * 16777216 + b.getD (4 * i + 1) 0 * 65536 +
    b.getD (4 * i + 2) 0 * 256 + b.getD (4 * i + 3) 0)

/-- SHA-1 message-schedule extension to 80 words. -/
def sha1Schedule (ws : List Nat) : List Nat :=
  (List.range 64).foldl
    (fun acc _ =>
      let n := acc.length
      acc ++ [rotl32 (acc.getD (n - 3) 0 ^^^ acc.getD (n - 8) 0 ^^^
                      acc.getD (n - 14) 0 ^^^ acc.getD (n - 16) 0) 1])
    ws

/-- One SHA-1 compression round. -/
def sha1Round (w : List Nat) (st : Nat × Nat × Nat × Nat × Nat) (i : Nat) :
    Nat × Nat × Nat × Nat × Nat :=
  let (a, b, c, d, e) := st
  let f :=
    if i < 20 then (b &&& c) ||| ((4294967295 - b) &&& d)
    else if i < 40 then b ^^^ c ^^^ d
    else if i < 60 then (b &&& c) ||| (b &&& d) ||| (c &&& d)
    else b ^^^ c ^^^ d
  let k :=
    if i < 20 then 1518500249
    else if i < 40 then 1859775393
    else if i < 60 then 2400959708
    else 3395469782
  let tmp := m32 (rotl32 a 5 + f + e + k + w.getD i 0)
  (tmp, a, rotl32 b 30, c, d)

/-- SHA-1 of a byte list, as 20 bytes. -/
def sha1 (bs : List Nat) : List Nat :=
  let final := (shaBlocks (shaPad bs)).foldl
    (fun (h : Nat × Nat × Nat × Nat × Nat) blk =>
      let (h0, h1, h2, h3, h4) := h
      let w := sha1Schedule (blockWords blk)
      let (a, b, c, d, e) := (List.range 80).foldl (sha1Round w) (h0, h1, h2, h3, h4)
      (m32 (h0 + a), m32 (h1 + b), m32 (h2 + c), m32 (h3 + d), m32 (h4 + e)))
    (1732584193, 4023233417, 2562383102, 271733878, 3285377520)
  let (h0, h1, h2, h3, h4) := final
  beBytes 4 h0 ++ beBytes 4 h1 ++ beBytes 4 h2 ++ beBytes 4 h3 ++ beBytes 4 h4

/-- The 64 SHA-256 round constants. -/
def sha256K : List Nat :=
  [1116352408, 1899447441, 3049323471, 3921009573, 961987163, 1508970993,
   2453635748, 2870763221, 3624381080, 310598401, 607225278, 1426881987,
   1925078388, 2162078206, 2614888103, 3248222580, 3835390401, 4022224774,
   264347078, 604807628, 770255983, 1249150122, 1555081692, 1996064986,
   2554220882, 2821834349, 2952996808, 3210313671, 3336571891, 3584528711,
   113926993, 338241895, 666307205, 773529912, 1294757372, 1396182291,
   1695183700, 1986661051, 2177026350, 2456956037, 2730485921, 2820302411,
   3259730800, 3345764771, 3516065817, 3600352804, 4094571909, 275423344,
   430227734, 506948616, 659060556, 883997877, 958139571, 1322822218,
   1537002063, 1747873779, 1955562222, 2024104815, 2227730452, 2361852424,
   2428436474, 2756734187, 3204031479, 3329325298]

/-- SHA-256 message-schedule extension to 64 words. -/
def sha256Schedule (ws : List Nat) : List Nat :=
  (List.range 48).foldl
    (fun acc _ =>
      let n := acc.length
      let w15 := acc.getD (n - 15) 0
      let w2 := acc.getD (n - 2) 0
      let s0 := rotr32 w15 7 ^^^ rotr32 w15 18 ^^^ Nat.shiftRight w15 3
      let s1 := rotr32 w2 17 ^^^ rotr32 w2 19 ^^^ Nat.shiftRight w2 10
      acc ++ [m32 (acc.getD (n - 16) 0 + s0 + acc.getD (n - 7) 0 + s1)])
    ws

/-- The eight-word SHA-256 state. -/
structure Sha256St where
  a : Nat
  b : Nat
  c : Nat
  d : Nat
  e : Nat
  f : Nat
  g : Nat
  h : Nat

/-- One SHA-256 compression round. -/
def sha256Round (w : List Nat) (st : Sha256St) (i : Nat) : Sha256St :=
  let S1 := rotr32 st.e 6 ^^^ rotr32 st.e 11 ^^^ rotr32 st.e 25
  let ch := (st.e &&& st.f) ^^^ ((4294967295 - st.e) &&& st.g)
  let t1 := m32 (st.h + S1 + ch + sha256K.getD i 0 + w.getD i 0)
  let S0 := rotr32 st.a 2 ^^^ rotr32 st.a 13 ^^^ rotr32 st.a 22
  let maj := (st.a &&& st.b) ^^^ (st.a &&& st.c) ^^^ (st.b &&& st.c)
  let t2 := m32 (S0 + maj)
  ⟨m32 (t1 + t2), st.a, st.b, st.c, m32 (st.d + t1), st.e, st.f, st.g⟩

/-- SHA-256 of a byte list, as 32 bytes. -/
def sha256 (bs : List Nat) : List Nat :=
  let final := (shaBlocks (shaPad bs)).foldl
    (fun (h : Sha256St) blk =>
      let w := sha256Schedule (blockWords blk)
      let r := (List.range 64).foldl (sha256Round w) h
      ⟨m32 (h.a + r.a), m32 (h.b + r.b), m32 (h.c + r.c), m32 (h.d + r.d),
       m32 (h.e + r.e), m32 (h.f + r.f), m32 (h.g + r.g), m32 (h.h + r.h)⟩)
    ⟨1779033703, 3144134277, 1013904242, 2773480762,
     1359893119, 2600822924, 528734635, 1541459225⟩
  beBytes 4 final.a ++ beBytes 4 final.b ++ beBytes 4 final.c ++ beBytes 4 final.d ++
  beBytes 4 final.e ++ beBytes 4 final.f ++ beBytes 4 final.g ++ beBytes 4 final.h

/-- One lowercase hex digit. -/
def hexDigit (n : Nat) : Char :=
  if n < 10 then Char.ofNat (48 + n) else Char.ofNat (87 + n)

/-- Lowercase hex rendering of a byte list (`hexdigest`). -/
def hexStr (bs : List Nat) : String :=
  String.mk (bs.foldr (fun b acc => hexDigit (b / 16) :: hexDigit (b % 16) :: acc) [])

/-- `hashlib.sha256(text.encode()).hexdigest()` — the engine's
`_hash_text_content`. -/
def sha256Hex (text : String) : String := hexStr (sha256 (strUtf8 text))

/-- `hashlib.sha1(text.encode()).hexdigest()`. -/
def sha1Hex (text : String) : String := hexStr (sha1 (strUtf8 text))

/-- The sixteen bytes of `uuid.NAMESPACE_DNS`. -/
def namespaceDNS : List Nat :=
  [107, 167, 184, 16, 157, 173, 17, 209,
   128, 180, 0, 192, 79, 212, 48, 200]

/-- Render sixteen UUID bytes in the canonical 8-4-4-4-12 form. -/
def uuidFormat (bs : List Nat) : String :=
  let hx := fun (l : List Nat) => (hexStr l)
  hx (bs.take 4) ++ "-" ++ hx ((bs.drop 4).take 2) ++ "-" ++
  hx ((bs.drop 6).take 2) ++ "-" ++ hx ((bs.drop 8).take 2) ++ "-" ++
  hx (bs.drop 10)

/-- `str(uuid.uuid5(uuid.NAMESPACE_DNS, name))`: SHA-1 of namespace
bytes and name, truncated to 16 bytes, with the version and variant
bits set per RFC 4122. -/
def uuid5dns (name : String) : String :=
  let digest := (sha1 (namespaceDNS ++ strUtf8 name)).take 16
  let withBits := digest.mapIdx (fun i b =>
    if i = 6 then b % 16 + 80
    else if i = 8 then b % 64 + 128
    else b)
  uuidFormat withBits

/-! ## Dates and datetimes

The fragment of Python `datetime` the engine uses: proleptic Gregorian
dates, `timedelta` subtraction, `strftime("%Y-%m-%d")`, `isoformat()` and
`fromisoformat`.  Day 0 is 0001-01-01 (a Monday, so `weekday` is the day
number mod 7).  The model has no microseconds; `isoformat()` of such a
datetime omits them, exactly as Python does when `microsecond == 0`.
Subtraction that would go below year 1 clamps at day 0 (Python raises
`OverflowError` there; no modelled code path reaches it). -/

/-- A calendar date. -/
structure PyDate where
  year : Nat
  month : Nat
  day : Nat
  deriving DecidableEq, Repr

/-- A naive datetime (no microseconds, no timezone). -/
structure PyDateTime where
  date : PyDate
  hour : Nat
  minute : Nat
  second : Nat
  deriving DecidableEq, Repr

/-- Gregorian leap year. -/
def isLeapYear (y : Nat) : Bool :=
  y % 4 == 0 && (y % 100 != 0 || y % 400 == 0)

/-- Length of a month. -/
def daysInMonth (y m : Nat) : Nat :=
  if m = 2 then (if isLeapYear y then 29 else 28)
  else if m = 4 ∨ m = 6 ∨ m = 9 ∨ m = 11 then 30
  else 31

/-- Days from 0001-01-01 to the given date. -/
def dateToDays (d : PyDate) : Nat :=
  let y := d.year - 1
  365 * y + y / 4 - y / 100 + y / 400 +
    ((List.range (d.month - 1)).map (fun i => daysInMonth d.year (i + 1))).sum +
    (d.day - 1)

/-- Day number of January 1 of a year. -/
def yearStartDays (y : Nat) : Nat := dateToDays ⟨y, 1, 1⟩

/-- Advance a lower-bound year until the next year starts after day `n`
(`fuel` bounds the search; 64 covers every year Python `datetime`
admits). -/
def findYear : Nat → Nat → Nat → Nat
  | 0, y, _ => y
  | fuel + 1, y, n => if yearStartDays (y + 1) ≤ n then findYear fuel (y + 1) n else y

/-- Walk the months of a year to locate a day offset. -/
def findMonth (y : Nat) : Nat → Nat → Nat → Nat × Nat
  | 0, m, r => (m, r)
  | fuel + 1, m, r =>
      if r < daysInMonth y m then (m, r) else findMonth y fuel (m + 1) (r - daysInMonth y m)

/-- Date of day number `n` (inverse of `dateToDays`). -/
def daysToDate (n : Nat) : PyDate :=
  let y := findYear 64 (n / 366 + 1) n
  let (m, r) := findMonth y 12 1 (n - yearStartDays y)
  ⟨y, m, r + 1⟩

/-- Seconds from 0001-01-01T00:00:00 to the given datetime. -/
def dtToSecs (t : PyDateTime) : Nat :=
  86400 * dateToDays t.date + 3600 * t.hour + 60 * t.minute + t.second

/-- Datetime of a second count. -/
def secsToDt (n : Nat) : PyDateTime :=
  ⟨daysToDate (n / 86400), n % 86400 / 3600, n % 3600 / 60, n % 60⟩

/-- `t - timedelta(seconds=s)` (negative `s` adds). -/
def dtSubSecs (t : PyDateTime) (s : Int) : PyDateTime :=
  secsToDt ((dtToSecs t : Int) - s).toNat

/-- `d - timedelta(days=k)`. -/
def dateSubDays (d : PyDate) (k : Nat) : PyDate :=
  daysToDate (dateToDays d - k)

/-- Zero-padded two-digit rendering. -/
def pad2 (n : Nat) : String :=
  if n < 10 then "0" ++ toString n else toString n

/-- Zero-padded four-digit rendering. -/
def pad4 (n : Nat) : String :=
  if n < 10 then "000" ++ toString n
  else if n < 100 then "00" ++ toString n
  else if n < 1000 then "0" ++ toString n
  else toString n

/-- `d.strftime("%Y-%m-%d")`, which is also `d.isoformat()`. -/
def fmtDate (d : PyDate) : String :=
  pad4 d.year ++ "-" ++ pad2 d.month ++ "-" ++ pad2 d.day

/-- `t.isoformat()` for a datetime without microseconds. -/
def pyIsoformat (t : PyDateTime) : String :=
  fmtDate t.date ++ "T" ++ pad2 t.hour ++ ":" ++ pad2 t.minute ++ ":" ++ pad2 t.second

/-- Numeric value of a decimal digit character. -/
def digitVal (c : Char) : Option Nat :=
  if c.isDigit then some (c.toNat - 48) else none

/-- Read exactly two decimal digits. -/
def take2Digits : List Char → Option (Nat × List Char)
  | a :: b :: rest =>
      match digitVal a, digitVal b with
      | some x, some y => some (10 * x + y, rest)
      | _, _ => none
  | _ => none

/-- Read exactly four decimal digits. -/
def take4Digits (l : List Char) : Option (Nat × List Char) :=
  match take2Digits l with
  | some (hi, rest) =>
      match take2Digits rest with
      | some (lo, rest2) => some (100 * hi + lo, rest2)
      | none => none
  | none => none

/-- Expect one given character. -/
def expectChar (c : Char) : List Char → Option (List Char)
  | a :: rest => if a = c then some rest else none
  | _ => none

/-- A fractional-second suffix of exactly three or six digits, as CPython's
`fromisoformat` accepts (the value is dropped: the model keeps no
microseconds, which never feed a day bucket). -/
def parseFraction (l : List Char) : Option (List Char) :=
  match l with
  | '.' :: rest =>
      let digits := rest.takeWhile (fun c => c.isDigit)
      if digits.length = 3 ∨ digits.length = 6 then some (rest.drop digits.length) else none
  | _ => none

/-- A trailing UTC-offset suffix `±HH:MM[:SS[.ffffff]]`, accepted and
discarded (`strftime`/`isoformat` of the parsed value keep the civil
field values unchanged). -/
def parseTzSuffix : List Char → Bool
  | [] => true
  | s :: rest =>
      (s = '+' || s = '-') &&
      (match take2Digits rest with
       | some (hh, r1) =>
           (match expectChar ':' r1 with
            | some r2 =>
                (match take2Digits r2 with
                 | some (mm, r3) =>
                     decide (hh < 24) && decide (mm < 60) &&
                     (match r3 with
                      | [] => true
                      | _ =>
                        match expectChar ':' r3 with
                        | some r4 =>
                            match take2Digits r4 with
                            | some (ss, r5) =>
                                decide (ss < 60) &&
                                (r5 = [] || (parseFraction r5).isSome &&
                                  (parseFraction r5).getD [] = [])
                            | none => false
                        | none => false)
                 | none => false)
            | none => false)
       | none => false)

/-- The time components `HH[:MM[:SS[.fff[fff]]]]` with an optional offset
suffix. -/
def parseIsoTime (l : List Char) : Option (Nat × Nat × Nat) :=
  match take2Digits l with
  | none => none
  | some (hh, r1) =>
    let finish := fun (mm ss : Nat) (rest : List Char) =>
      if decide (hh < 24) && decide (mm < 60) && decide (ss < 60) && parseTzSuffix rest
      then some (hh, mm, ss) else none
    match r1 with
    | ':' :: r2 =>
        match take2Digits r2 with
        | none => none
        | some (mm, r3) =>
          match r3 with
          | ':' :: r4 =>
              match take2Digits r4 with
              | none => none
              | some (ss, r5) =>
                match parseFraction r5 with
                | some r6 => finish mm ss r6
                | none => finish mm ss r5
          | _ => finish mm 0 r3
    | _ => finish 0 0 r1

/-- `datetime.fromisoformat`: a `YYYY-MM-DD` date, optionally followed by
a single separator character and a time.  Returns `none` exactly where
Python raises `ValueError`. -/
def pyFromIso (s : String) : Option PyDateTime :=
  match take4Digits s.data with
  | none => none
  | some (y, r1) =>
    match expectChar '-' r1 with
    | none => none
    | some r2 =>
      match take2Digits r2 with
      | none => none
      | some (mo, r3) =>
        match expectChar '-' r3 with
        | none => none
        | some r4 =>
          match take2Digits r4 with
          | none => none
          | some (d, r5) =>
            if 1 ≤ y ∧ 1 ≤ mo ∧ mo ≤ 12 ∧ 1 ≤ d ∧ d ≤ daysInMonth y mo then
              match r5 with
              | [] => some ⟨⟨y, mo, d⟩, 0, 0, 0⟩
              | _ :: trest =>
                  match parseIsoTime trest with
                  | some (hh, mm, ss) => some ⟨⟨y, mo, d⟩, hh, mm, ss⟩
                  | none => none
            else none

/-- Python `int(s)`: surrounding whitespace, an optional sign, then
decimal digits. -/
def pyParseInt (s : String) : Option Int :=
  let t := (pyStrip s).data
  let core : List Char → Option Nat := fun l =>
    if l ≠ [] ∧ l.all (fun c => c.isDigit) then
      some (l.foldl (fun acc c => 10 * acc + (c.toNat - 48)) 0)
    else none
  match t with
  | '-' :: rest => (core rest).map (fun n => -(n : Int))
  | '+' :: rest => (core rest).map (fun n => (n : Int))
  | l => (core l).map (fun n => (n : Int))

/-! ## The Secure RAG Engine (`back/ai/secure_rag_engine.py`)

The engine state is the pair of Qdrant collections it writes
(`secure_telegram_messages` and `secure_telegram_summaries`).  The three
external providers — Gemini embeddings, the ANN similarity scoring of the
vector store, and Gemini text completion — are opaque function arguments,
collected in `Oracles`; an unavailable client is the oracle that always
returns `none`.  `datetime.now()` is the explicit `now` argument. -/

/-- The external providers of the engine. -/
structure Oracles where
  /-- `genai.embed_content`: text to embedding vector, `none` on failure. -/
  embed : String → Option (List ℚ)
  /-- The vector store's similarity score between query and point vectors. -/
  sim : List ℚ → List ℚ → ℚ
  /-- `gemini_client.generate_text (prompt, max_tokens, temperature)`. -/
  genText : String → Nat → ℚ → Option String

/-- The two collections the engine writes. -/
structure EngineState where
  messages : QCollection
  summaries : QCollection
  deriving DecidableEq, Repr

/-- `_generate_embedding`: empty-after-strip text embeds to nothing;
longer text is truncated to `max_text_length = 8000` characters first. -/
def generateEmbedding (o : Oracles) (text : String) : Option (List ℚ) :=
  if pyStrip text = "" then none
  else o.embed (if text.length > 8000 then pyTake text 8000 else text)

/-- `_generate_point_id`: deterministic UUID5 of
`f"{session_id}_{chat_id}_{message_id}"`.  The message timestamp is not
part of the input. -/
def generatePointId (session : String) (chat mid : Int) : String :=
  uuid5dns (session ++ "_" ++ toString chat ++ "_" ++ toString mid)

/-- The parsed shape of a message `date` string: an absolute datetime or
the custom relative `"N+offset"` minutes-ago encoding. -/
inductive ParsedMsgDate where
  | abs (t : PyDateTime)
  | minutesAgo (m : Int)
  deriving DecidableEq, Repr

/-- The date-parsing ladder of `_extract_safe_metadata`: the custom
`"N+offset"` format when the string has `+` but no `T`; ISO with the
text after the first `+` or `Z` dropped when it has `T`; plain ISO
otherwise.  `none` is every branch's parse failure (Python catches the
`ValueError` and falls back to `datetime.now()`). -/
def parseMsgDate (s : String) : Option ParsedMsgDate :=
  if pyContainsChar s '+' && !(pyContainsChar s 'T') then
    match pySplitChar s '+' with
    | [minutes, _timePart] => (pyParseInt minutes).map .minutesAgo
    | _ => none
  else if pyContainsChar s 'T' then
    let clean := (pySplitChar ((pySplitChar s '+').headD "") 'Z').headD ""
    (pyFromIso clean).map .abs
  else
    (pyFromIso s).map .abs

/-- Resolve a parsed date against the clock: parse failure means "now",
the relative encoding means `now - timedelta(minutes=m)`. -/
def resolveMsgDate (now : PyDateTime) : Option ParsedMsgDate → PyDateTime
  | some (.abs t) => t
  | some (.minutesAgo m) => dtSubSecs now (60 * m)
  | none => now

/-- The `msg_date` computed by `_extract_safe_metadata` (a missing or
empty `date` key keeps the `datetime.now()` default). -/
def extractSafeMetadataDate (now : PyDateTime) (msg : PyDict) : PyDateTime :=
  let dateStr := dictGetStr msg "date" ""
  if dateStr = "" then now else resolveMsgDate now (parseMsgDate dateStr)

/-- `_extract_safe_metadata`: the metadata dict stored with every
message point.  (The function's own `except` fallback is unreachable
here: no operation in the translated body can raise once `date` is a
string, which `dictGetStr` already enforces.) -/
def extractSafeMetadata (now : PyDateTime) (msg : PyDict) : PyDict :=
  let msgDate := extractSafeMetadataDate now msg
  [("message_id", .int (dictGetInt msg "id" 0)),
   ("is_outgoing", .bool (dictGetBool msg "is_outgoing" false)),
   ("date", .str (pyIsoformat msgDate)),
   ("day_bucket", .str (fmtDate msgDate.date)),
   ("sender_name", .str (dictGetStr msg "sender_name" "")),
   ("sender_id", .int (dictGetInt msg "sender_id" 0)),
   ("text_hash", .str (sha256Hex (dictGetStr msg "text" "")))]

/-- The payload `store_message_securely` builds:
`safe_metadata.update({...})` overwrites `text_hash` in place (keeping
its position, as Python dicts do) and appends the scope keys and the raw
text. -/
def storedMessagePayload (now : PyDateTime) (session : String) (chat : Int)
    (msg : PyDict) : PyDict :=
  let messageText := pyStrip (dictGetStr msg "text" "")
  dictSet (dictSet (dictSet (dictSet (extractSafeMetadata now msg)
    "session_id" (.str session)) "chat_id" (.int chat))
    "text" (.str messageText)) "text_hash" (.str (sha256Hex messageText))

/-- `store_message_securely`: reject empty or short text, embed, build the
payload, and upsert under the deterministic point id. -/
def storeMessageSecurely (o : Oracles) (now : PyDateTime) (st : EngineState)
    (session : String) (chat : Int) (msg : PyDict) : Bool × EngineState :=
  let messageText := pyStrip (dictGetStr msg "text" "")
  if messageText = "" ∨ messageText.length < 3 then (false, st)
  else
    match generateEmbedding o messageText with
    | none => (false, st)
    | some emb =>
        let md := extractSafeMetadata now msg
        let payload := storedMessagePayload now session chat msg
        let pointId := generatePointId session chat (dictGetInt md "message_id" 0)
        (true, { st with messages := qdrantUpsert st.messages ⟨pointId, emb, payload⟩ })

/-- The tier attached to every similarity hit:
`"high" if score > 0.85 else "medium" if score > 0.75 else "low"`. -/
def relevanceTier (s : ℚ) : String :=
  if s > mkRat 85 100 then "high" else if s > mkRat 75 100 then "medium" else "low"

/-- One entry of the list `find_similar_messages_secure` returns. -/
structure SimilarMessage where
  score : ℚ
  relevance : String
  metadata : PyDict
  text : String
  isOutgoing : Bool
  date : String
  senderName : String
  contextHint : String
  deriving DecidableEq, Repr

/-- `find_similar_messages_secure`: embed the query, build the `must`
filter (always `session_id`; also `chat_id` unless `include_other_chats`;
also the day buckets when a non-empty list is given) and search. -/
def findSimilarMessagesSecure (o : Oracles) (st : EngineState)
    (session : String) (chat : Int) (queryText : String) (limit : Nat)
    (scoreThreshold : ℚ) (includeOtherChats : Bool)
    (dayBuckets : Option (List String)) : List SimilarMessage :=
  match generateEmbedding o queryText with
  | none => []
  | some qv =>
      let mustConditions :=
        [FCond.matchVal "session_id" (.str session)]
        ++ (if includeOtherChats then [] else [FCond.matchVal "chat_id" (.int chat)])
        ++ (match dayBuckets with
            | some (b :: bs) => [FCond.matchAny "day_bucket" (b :: bs)]
            | _ => [])
      (qdrantSearch st.messages qv o.sim ⟨mustConditions⟩ limit scoreThreshold).map
        (fun r =>
          { score := r.score
            relevance := relevanceTier r.score
            metadata := r.payload
            text := dictGetStr r.payload "text" ""
            isOutgoing := dictGetBool r.payload "is_outgoing" false
            date := dictGetStr r.payload "date" ""
            senderName := dictGetStr r.payload "sender_name" ""
            contextHint := "Message from " ++ dictGetStr r.payload "date" "unknown"
              ++ " (" ++ toString (dictGetInt r.payload "text_length" 0) ++ " chars)" })

/-- The scope filter `(session_id, chat_id)` used by scrolls and deletes. -/
def scopeFilter (session : String) (chat : Int) : QFilter :=
  ⟨[.matchVal "session_id" (.str session), .matchVal "chat_id" (.int chat)]⟩

/-- The projection both `get_enhanced_context_secure` and
`get_messages_for_period` apply to a stored payload. -/
def formatMsgPayload (p : PyDict) : PyDict :=
  [("id", .int (dictGetInt p "message_id" 0)),
   ("text", .str (dictGetStr p "text" "")),
   ("date", .str (dictGetStr p "date" "")),
   ("is_outgoing", .bool (dictGetBool p "is_outgoing" false)),
   ("sender_name", .str (dictGetStr p "sender_name" "")),
   ("sender_id", .int (dictGetInt p "sender_id" 0))]

/-- The value `get_enhanced_context_secure` returns. -/
structure EnhancedContext where
  recentMessages : List PyDict
  similarMessages : List SimilarMessage
  totalContextItems : Nat
  ragEnhanced : Bool
  deriving DecidableEq, Repr

/-- `get_enhanced_context_secure`: scroll the scope, order by the payload
`date` descending, format, and (when a current message is given) add a
similarity search at threshold 0.65. -/
def getEnhancedContextSecure (o : Oracles) (st : EngineState)
    (session : String) (chat : Int) (currentMessage : String)
    (contextLimit : Nat) : EnhancedContext :=
  let recs := qdrantScroll st.messages (scopeFilter session chat) contextLimit
  let sorted := (sortByBool
    (fun a b => decide (dictGetStr b "date" "" ≤ dictGetStr a "date" ""))
    (recs.map (·.payload))).take contextLimit
  let formatted := sorted.map formatMsgPayload
  let similar :=
    if pyStrip currentMessage ≠ "" then
      findSimilarMessagesSecure o st session chat currentMessage 5 (mkRat 65 100) false none
    else []
  ⟨formatted, similar, formatted.length + similar.length, true⟩

/-- `cleanup_expired_messages`: select the points whose
`retention_expires` payload field is below `now().isoformat()`, delete
them by id, and return how many were deleted. -/
def cleanupExpiredMessages (now : PyDateTime) (st : EngineState) :
    Nat × EngineState :=
  let expiredFilter : QFilter := ⟨[.rangeLt "retention_expires" (pyIsoformat now)]⟩
  let expiredIds := (qdrantScroll st.messages expiredFilter 1000).map (·.id)
  if expiredIds.isEmpty then (0, st)
  else (expiredIds.length, { st with messages := qdrantDeleteIds st.messages expiredIds })

/-- The value `get_collection_stats` returns: either the no-client error
dict or the stats dict. -/
inductive StatsReply where
  | errorReply (msg : String)
  | stats (collections : List (String × Nat)) (embeddingModel : String)
      (embeddingDimension : Nat) (retentionDays : Nat)
      (status securityMode rawTextStorage : String)
  deriving DecidableEq, Repr

/-- `get_collection_stats` (the `conversations` and `user_patterns`
collections are never written by any engine operation, so their point
count is 0). -/
def getCollectionStats (client : Option EngineState) (retentionDays : Nat) :
    StatsReply :=
  match client with
  | none => .errorReply "Qdrant client not available"
  | some st =>
      .stats
        [("messages", st.messages.length), ("conversations", 0),
         ("user_patterns", 0), ("summaries", st.summaries.length)]
        "embedding-001" 768 retentionDays "healthy" "enabled" "disabled"

/-- `clear_chat_data_secure`: delete every message point of the scope. -/
def clearChatDataSecure (st : EngineState) (session : String) (chat : Int) :
    Bool × EngineState :=
  (true, { st with messages := qdrantDeleteFilter st.messages (scopeFilter session chat) })

/-- One hit of `find_similar_chunks`. -/
structure ChunkHit where
  score : ℚ
  payload : PyDict
  deriving DecidableEq, Repr

/-- `find_similar_chunks`: scope-filtered similarity search over the
summaries collection at fixed threshold 0.2. -/
def findSimilarChunks (o : Oracles) (st : EngineState) (session : String)
    (chat : Int) (queryText : String) (limit : Nat) : List ChunkHit :=
  match generateEmbedding o queryText with
  | none => []
  | some qv =>
      (qdrantSearch st.summaries qv o.sim (scopeFilter session chat) limit (mkRat 2 10)).map
        (fun r => ⟨r.score, r.payload⟩)

/-- `get_messages_for_period`: scroll the scope restricted to the day
buckets of the requested dates.  (The Python-side re-filtering fallback
only runs when the vector store rejects the native filter, which the
model's store never does.) -/
def getMessagesForPeriod (st : EngineState) (session : String) (chat : Int)
    (dates : List PyDate) (limit : Nat) : List PyDict :=
  let dayBuckets := dates.map fmtDate
  let f : QFilter :=
    ⟨[.matchVal "session_id" (.str session), .matchVal "chat_id" (.int chat),
      .matchAny "day_bucket" dayBuckets]⟩
  (qdrantScroll st.messages f limit).map (fun p => formatMsgPayload p.payload)

/-- Python-dict grouping: first-occurrence key order, values in input
order. -/
def pyGroupBy [DecidableEq κ] (key : α → κ) (l : List α) : List (κ × List α) :=
  l.foldl
    (fun acc x =>
      let k := key x
      if acc.any (fun kv => kv.1 = k) then
        acc.map (fun kv => if kv.1 = k then (kv.1, kv.2 ++ [x]) else kv)
      else acc ++ [(k, [x])])
    []

/-- The pseudo-transcript built for a summarization prompt. -/
def transcriptLines (msgs : List PyDict) : String :=
  pyJoin "\n" (msgs.map (fun m =>
    (if dictGetBool m "is_outgoing" false then "Вы" else "Контакт") ++ ": " ++
    pyReplaceChar (pyTake (dictGetStr m "text" "") 120) '\n' ' '))

/-- `_store_period_summary`: embed the summary, derive the UUID5 id from
scope and period, and upsert into the summaries collection. -/
def storePeriodSummary (o : Oracles) (now : PyDateTime) (st : EngineState)
    (session : String) (chat : Int) (dates : List PyDate)
    (summaryText : String) : Bool × EngineState :=
  match generateEmbedding o summaryText with
  | none => (false, st)
  | some emb =>
      let periodStr := pyJoin "_" (dates.map fmtDate)
      let summaryId := uuid5dns (session ++ "_" ++ toString chat ++ "_" ++ periodStr)
      let payload : PyDict :=
        [("session_id", .str session), ("chat_id", .int chat),
         ("period_dates", .strList (dates.map fmtDate)),
         ("summary", .str summaryText),
         ("created_at", .str (pyIsoformat now))]
      (true, { st with summaries := qdrantUpsert st.summaries ⟨summaryId, emb, payload⟩ })

/-- The generation arm of `get_period_summary`: fetch the period's
messages, group them by the (absent) `day_bucket` key, ask the completion
model for one digest per group, join with the date-labelled separator,
store the result as a period summary, and return it. -/
def generatePeriodSummaryPath (o : Oracles) (now : PyDateTime)
    (st : EngineState) (session : String) (chat : Int) (dates : List PyDate) :
    Option String × EngineState :=
  let messages := getMessagesForPeriod st session chat dates 1000
  if messages.isEmpty then (none, st)
  else
    let daysGroups := pyGroupBy (fun m => dictGetStr m "day_bucket" "unknown") messages
    let daySummaries := daysGroups.foldl
      (fun acc kv =>
        if kv.2.isEmpty then acc
        else
          let prompt := "Суммаризируй следующий фрагмент переписки за " ++ kv.1 ++
            ". Выдели главные темы, важные моменты и эмоциональный контекст:\n\n" ++
            transcriptLines kv.2 ++ "\n\nКраткая сводка:"
          match o.genText prompt 200 (mkRat 3 10) with
          | some ds => if ds ≠ "" then acc ++ ["[" ++ kv.1 ++ "]: " ++ pyStrip ds] else acc
          | none => acc)
      []
    if daySummaries ≠ [] then
      let finalSummary := pyJoin "\n---\n" daySummaries
      (some finalSummary, (storePeriodSummary o now st session chat dates finalSummary).2)
    else (none, st)

/-- The list comprehension
`[s["payload"].get("summary", "") for s in existing if s["payload"].get("summary")]`:
the non-empty summary texts of a list of chunk hits. -/
def chunkSummaries (hits : List ChunkHit) : List String :=
  hits.filterMap (fun c =>
    let s := dictGetStr c.payload "summary" ""
    if s ≠ "" then some s else none)

/-- `get_period_summary`: first a similarity search for existing summary
chunks, with the day-bucket strings joined by spaces as the query; any
found (non-empty) summaries are joined and returned as-is; only when the
search yields nothing usable is a new summary generated and stored. -/
def getPeriodSummary (o : Oracles) (now : PyDateTime) (st : EngineState)
    (session : String) (chat : Int) (dates : List PyDate) (maxChunks : Nat) :
    Option String × EngineState :=
  let dayBuckets := dates.map fmtDate
  let existingSummaries :=
    findSimilarChunks o st session chat (pyJoin " " dayBuckets) maxChunks
  if existingSummaries ≠ [] then
    let summaries := chunkSummaries existingSummaries
    if summaries ≠ [] then (some (pyJoin "\n---\n" summaries), st)
    else generatePeriodSummaryPath o now st session chat dates
  else generatePeriodSummaryPath o now st session chat dates

/-- `_generate_and_store_summary(session_id, chat_id)` — note the
two-parameter signature: summarize the last 40 messages of the scope and
store the digest as a chunk keyed by a SHA-1 of scope and current time. -/
def generateAndStoreSummary (o : Oracles) (now : PyDateTime) (st : EngineState)
    (session : String) (chat : Int) : EngineState :=
  let msgs := (getEnhancedContextSecure o st session chat "" 40).recentMessages
  if msgs.isEmpty then st
  else
    let prompt := "Суммаризируй следующий фрагмент переписки кратко, укажи темы, эмоции, даты: \n" ++
      transcriptLines msgs ++ "\n\nКраткая сводка:"
    match o.genText prompt 200 (mkRat 3 10) with
    | none => st
    | some summaryText =>
        if summaryText = "" then st
        else
          match generateEmbedding o summaryText with
          | none => st
          | some emb =>
              let chunkId := sha1Hex (session ++ ":" ++ toString chat ++ ":" ++ pyIsoformat now)
              let payload : PyDict :=
                [("session_id", .str session), ("chat_id", .int chat),
                 ("timestamp", .str (pyIsoformat now)),
                 ("day_bucket", .str (fmtDate now.date)),
                 ("chunk_length", .int msgs.length),
                 ("summary_chars", .int summaryText.length),
                 ("summary", .str summaryText),
                 ("start_ts", (dictGet (msgs.getLast?.getD []) "timestamp").getD .null),
                 ("end_ts", (dictGet (msgs.headD []) "timestamp").getD .null)]
              { st with summaries := qdrantUpsert st.summaries ⟨chunkId, emb, payload⟩ }

/-- The set (here: first-occurrence list) of calendar days
`sync_chat_history` derives from its message list by re-running
`_extract_safe_metadata` and re-parsing the metadata's ISO date. -/
def daysWithMessages (now : PyDateTime) (msgs : List PyDict) : List PyDate :=
  msgs.foldl
    (fun acc m =>
      match pyFromIso (dictGetStr (extractSafeMetadata now m) "date" "") with
      | some t => if acc.contains t.date then acc else acc ++ [t.date]
      | none => acc)
    []

/-- `sync_chat_history`: unless an existing 30-day window already has
messages, store every message, group the message days into weeks, and run
the per-week summary loop.  That loop's call
`self._generate_and_store_summary(session_id, chat_id, days)` passes
three arguments to the two-parameter method `_generate_and_store_summary`
above, so Python raises `TypeError` on the first iteration; the
function's `except Exception` handler turns this into a `False` return. -/
def syncChatHistory (o : Oracles) (now : PyDateTime) (st : EngineState)
    (session : String) (chat : Int) (messages : List PyDict)
    (forceResync : Bool) : Bool × EngineState :=
  if ¬forceResync ∧
      getMessagesForPeriod st session chat
        ((List.range 30).map (fun x => dateSubDays now.date x)) 1000 ≠ [] then
    (true, st)
  else
    let msgs := messages.map (fun m =>
      dictSet (dictSet m "session_id" (.str session)) "chat_id" (.int chat))
    let st1 := msgs.foldl (fun acc m => (storeMessageSecurely o now acc session chat m).2) st
    let days := daysWithMessages now msgs
    let weeks := pyGroupBy (fun d => dateSubDays d (dateToDays d % 7)) days
    match weeks with
    | [] => (true, st1)
    | _ :: _ => (false, st1)

/-! ## The context assembler (`back/ai/rag_pipeline.py`) -/

/-- Python `str.lower()` on the alphabets the queries use (ASCII and
Cyrillic). -/
def pyLowerChar (c : Char) : Char :=
  let n := c.toNat
  if 65 ≤ n ∧ n ≤ 90 then Char.ofNat (n + 32)
  else if 1040 ≤ n ∧ n ≤ 1071 then Char.ofNat (n + 32)
  else if n = 1025 then Char.ofNat 1105
  else c

/-- `s.lower()`. -/
def pyLower (s : String) : String := String.mk (s.data.map pyLowerChar)

/-- Does the list start with the given pattern? -/
def startsWithList : List Char → List Char → Bool
  | _, [] => true
  | [], _ :: _ => false
  | a :: as, b :: bs => a = b && startsWithList as bs

/-- Does the pattern occur anywhere in the list? -/
def containsList (sub : List Char) : List Char → Bool
  | [] => sub.isEmpty
  | a :: tl => startsWithList (a :: tl) sub || containsList sub tl

/-- Python `sub in s`. -/
def strIn (sub s : String) : Bool := containsList sub.data s.data

/-- Try the relative-period regex `(\d+)\s*(w1|w2|w3)\s*назад` at one
position: maximal digits, optional whitespace, the first matching
alternative, optional whitespace, the literal `назад`. -/
def matchRelAt (words : List String) (l : List Char) : Option Nat :=
  let digits := l.takeWhile (fun c => c.isDigit)
  if digits.isEmpty then none
  else
    let rest1 := (l.drop digits.length).dropWhile (fun c => c.isWhitespace)
    match words.findSome? (fun w =>
        if startsWithList rest1 w.data then some (rest1.drop w.data.length) else none) with
    | none => none
    | some rest2 =>
        if startsWithList (rest2.dropWhile (fun c => c.isWhitespace)) "назад".data then
          some (digits.foldl (fun acc c => 10 * acc + (c.toNat - 48)) 0)
        else none

/-- `re.search` for the relative-period pattern: leftmost match wins. -/
def searchRel (words : List String) : List Char → Option Nat
  | [] => none
  | a :: tl =>
      match matchRelAt words (a :: tl) with
      | some n => some n
      | none => searchRel words tl

/-- The value `_detect_time_range` returns. -/
structure TimeInfo where
  dates : List PyDate
  periodType : String
  isRelative : Bool
  originalQuery : String
  deriving DecidableEq, Repr

/-- `[(now - timedelta(days=x)).date() for x in range(lo, hi)]`. -/
def datesBack (now : PyDateTime) (lo hi : Nat) : List PyDate :=
  (List.range (hi - lo)).map (fun i => dateSubDays now.date (lo + i))

/-- The `time_keywords` table, in dict order (so `"вчера"` is found
inside `"позавчера"` first, as in the source). -/
def timeKeywords (now : PyDateTime) : List (String × List PyDate × String) :=
  [("сегодня", datesBack now 0 1, "день"),
   ("вчера", datesBack now 1 2, "день"),
   ("позавчера", datesBack now 2 3, "день"),
   ("на этой неделе", datesBack now 0 7, "неделя"),
   ("на прошлой неделе", datesBack now 7 14, "неделя"),
   ("в этом месяце", datesBack now 0 30, "месяц"),
   ("в прошлом месяце", datesBack now 30 60, "месяц")]

/-- The `past_keywords` list. -/
def pastKeywords : List String :=
  ["раньше", "прошлый", "прошлая", "прошлые", "прошлом", "прошлого", "назад"]

/-- `_detect_time_range`: keyword table, then the three relative-period
patterns, then the past-words 30-day window, then the default 7-day
window. -/
def detectTimeRange (query : String) (now : PyDateTime) : TimeInfo :=
  let ql := pyLower query
  match (timeKeywords now).find? (fun kw => strIn kw.1 ql) with
  | some kw => ⟨kw.2.1, kw.2.2, true, query⟩
  | none =>
    match searchRel ["дней", "дня", "день"] ql.data with
    | some amount => ⟨datesBack now 0 amount, "день", true, query⟩
    | none =>
      match searchRel ["недель", "недели", "неделю"] ql.data with
      | some amount => ⟨datesBack now 0 (amount * 7), "неделя", true, query⟩
      | none =>
        match searchRel ["месяцев", "месяца", "месяц"] ql.data with
        | some amount => ⟨datesBack now 0 (amount * 30), "месяц", true, query⟩
        | none =>
          if pastKeywords.any (fun w => strIn w ql) then
            ⟨datesBack now 0 30, "месяц", true, query⟩
          else
            ⟨datesBack now 0 7, "неделя", true, query⟩

/-- Python `round(q, 2)` on an exact rational: half-to-even. -/
def pyRound2 (q : ℚ) : Int :=
  let s := q * 100
  let fl := s.floor
  let frac := s - fl
  if frac > mkRat 1 2 then fl + 1
  else if frac < mkRat 1 2 then fl
  else if fl % 2 = 0 then fl else fl + 1

/-- Render `k/100` the way Python prints the rounded float (`0.85`,
`0.8`, `1.0`, `-0.25`).  Scores are exact rationals here, so the
rendering is exact. -/
def fmtRound2 (k : Int) : String :=
  let a := k.natAbs
  let sign := if k < 0 then "-" else ""
  let frac := a % 100
  let fracStr :=
    if frac = 0 then "0"
    else if frac % 10 = 0 then toString (frac / 10)
    else pad2 frac
  sign ++ toString (a / 100) ++ "." ++ fracStr

/-- `s[-8:]`. -/
def strLast8 (s : String) : String :=
  String.mk (s.data.drop (s.data.length - 8))

/-- `lst[-n:]` for a Python int `n ≥ 0` (for `n = 0` this is `lst[0:]`,
the whole list). -/
def pySliceLastN (l : List α) (n : Nat) : List α :=
  if n = 0 then l else l.drop (l.length - n)

/-- The `sections` metadata of a built context. -/
structure ContextSections where
  recent : Nat
  similar : Nat
  chunks : Nat
  periodMessages : Nat
  hasPeriodSummary : Bool
  deriving DecidableEq, Repr

/-- The value `build_context_for_ai` returns. -/
structure BuiltContext where
  prompt : String
  sections : ContextSections
  tokens : Nat
  deriving DecidableEq, Repr

/-- `build_context_for_ai`: detect the time range, fetch period or recent
messages, fetch similar messages and summary chunks, and join the
labelled sections (dropping only the empty strings, as
`[s for s in prompt_sections if s]` does) around the final
`ВОПРОС`/`ОТВЕТ` lines.  Returns the built context together with the
engine state, which `get_period_summary` may have extended with a newly
stored summary chunk. -/
def buildContextForAi (o : Oracles) (now : PyDateTime) (st : EngineState)
    (session : String) (chat : Int) (query : String) (recentLimit : Nat)
    (chunkLimit : Nat) (providedRecent : Option (List PyDict))
    (chatName : String) : BuiltContext × EngineState :=
  let timeInfo := detectTimeRange query now
  let branch :=
    if timeInfo.dates ≠ [] then
      let pm := getMessagesForPeriod st session chat timeInfo.dates 1000
      let res := getPeriodSummary o now st session chat timeInfo.dates 3
      let rm := if pm ≠ [] then pySliceLastN pm recentLimit else []
      (rm, res.1, pm, res.2)
    else
      let rm :=
        match providedRecent with
        | some (p :: pr) => pySliceLastN (p :: pr) recentLimit
        | _ => (getEnhancedContextSecure o st session chat "" recentLimit).recentMessages
      (rm, none, rm, st)
  let recentMessages := branch.1
  let periodSummary := branch.2.1
  let periodMessages := branch.2.2.1
  let st1 := branch.2.2.2
  let recentBlockLines := recentMessages.map (fun m =>
    let dateStr := dictGetStr m "date" ""
    let ts := if dateStr ≠ "" then strLast8 dateStr else ""
    let who :=
      if dictGetBool m "is_outgoing" false then "Вы"
      else if chatName ≠ "" then chatName else "Контакт"
    who ++ " (" ++ ts ++ "): " ++ dictGetStr m "text" "")
  let recentBlock := pyJoin "\n" recentBlockLines
  let similar := findSimilarMessagesSecure o st1 session chat query 5 (mkRat 25 100) false
    (if timeInfo.dates ≠ [] then some (timeInfo.dates.map fmtDate) else none)
  let simLines := similar.map (fun i =>
    "→ (" ++ fmtRound2 (pyRound2 i.score) ++ ") " ++ dictGetStr i.metadata "context_hint" "")
  let similarBlock := pyJoin "\n" simLines
  let chunks := findSimilarChunks o st1 session chat query chunkLimit
  let chunkLines := chunks.filterMap (fun c =>
    let s := dictGetStr c.payload "summary" ""
    if s ≠ "" then some ("◼︎ (" ++ fmtRound2 (pyRound2 c.score) ++ ") " ++ s) else none)
  let chunksBlock := pyJoin "\n" chunkLines
  let promptSections :=
    (if timeInfo.dates ≠ [] then
      ["ЗАПРОШЕННЫЙ ПЕРИОД: " ++ timeInfo.periodType,
       "ВСЕГО СООБЩЕНИЙ ЗА ПЕРИОД: " ++ toString periodMessages.length]
      ++ (match periodSummary with
          | some ps => if ps ≠ "" then ["ОБЩИЙ КОНТЕКСТ ПЕРИОДА:", ps] else []
          | none => [])
     else [])
    ++ ["\nПОСЛЕДНИЕ СООБЩЕНИЯ:", recentBlock,
        "\nРЕЛЕВАНТНЫЕ ОТРЫВКИ:", chunksBlock,
        "\nПОХОЖИЕ СООБЩЕНИЯ:", similarBlock,
        "\n\nВОПРОС: " ++ query ++ "\nОТВЕТ:"]
  let fullPrompt := pyJoin "\n" (promptSections.filter (fun s => s ≠ ""))
  let sections : ContextSections :=
    ⟨recentBlockLines.length, similar.length, chunkLines.length,
     if timeInfo.dates ≠ [] then periodMessages.length else 0,
     match periodSummary with | some s => s ≠ "" | none => false⟩
  (⟨fullPrompt, sections, fullPrompt.length / 4⟩, st1)

/-! ## The agent orchestrator (`back/agents/chief_agent.py`)

The pipeline state is the Python dict threaded through the agents; an
agent is a function from the state to either a new state or the message
of a raised exception.  The five concrete agents wrap LLM calls and are
external here: the orchestrator is modelled as a function of the five
agent functions. -/

/-- Python truthiness of a dict value. -/
def pyTruthy : PVal → Bool
  | .str s => s ≠ ""
  | .int n => n ≠ 0
  | .bool b => b
  | .strList l => ¬ l.isEmpty
  | .null => false

/-- `state.get(key)` truthiness (`None` for a missing key is falsy). -/
def dictTruthyAt (d : PyDict) (k : String) : Bool :=
  match dictGet d k with
  | some v => pyTruthy v
  | none => false

/-- An agent: `await agent.execute(state)` returns a new state or raises
an exception carrying a message. -/
abbrev AgentFn := PyDict → Except String PyDict

/-- `ChiefAgent._run_agent`: run one agent; on an exception, keep the
incoming state and write `"An error occurred in {agent_name}: {e}"` into
its `error` slot. -/
def runAgent (name : String) (agent : AgentFn) (state : PyDict) : PyDict :=
  match agent state with
  | .ok s => s
  | .error e => dictSet state "error" (.str ("An error occurred in " ++ name ++ ": " ++ e))

/-- `ChiefAgent.execute`: Analyst, Context, Relevance, Writer, Critic in
order, returning the state as soon as its `error` slot is truthy after a
stage.  (The `is_context_relevant` branch in the source only logs.) -/
def chiefExecute (analyst contextAgent relevance writer critic : AgentFn)
    (initialState : PyDict) : PyDict :=
  let s1 := runAgent "AnalystAgent" analyst initialState
  if dictTruthyAt s1 "error" then s1 else
  let s2 := runAgent "ContextAgent" contextAgent s1
  if dictTruthyAt s2 "error" then s2 else
  let s3 := runAgent "RelevanceAgent" relevance s2
  if dictTruthyAt s3 "error" then s3 else
  let s4 := runAgent "WriterAgent" writer s3
  if dictTruthyAt s4 "error" then s4 else
  runAgent "CriticAgent" critic s4

/-! ## Concrete instances used by witnesses and counterexamples -/

/-- Does the list end with the given pattern? -/
def endsWithList (l suffix : List Char) : Bool :=
  startsWithList l.reverse suffix.reverse

/-- Python `s.endswith(t)`. -/
def strEndsWith (s t : String) : Bool := endsWithList s.data t.data

/-- A provider set for concrete runs: a constant embedding, constant
similarity 0.85, constant completion text. -/
def oW : Oracles := ⟨fun _ => some [1], fun _ _ => mkRat 85 100, fun _ _ _ => some "SUM"⟩

/-- A concrete clock: 2024-03-06T00:30:00. -/
def nowW : PyDateTime := ⟨⟨2024, 3, 6⟩, 0, 30, 0⟩

/-- A store holding one point in scope `("s", 1)`. -/
def stScopeW : EngineState :=
  ⟨[⟨"pid", [1], [("session_id", .str "s"), ("chat_id", .int 1)]⟩], []⟩

/-- The hit that searching `stScopeW` with `oW` returns. -/
def simResW : SimilarMessage :=
  ⟨mkRat 85 100, "medium", [("session_id", .str "s"), ("chat_id", .int 1)], "", false, "", "",
   "Message from unknown (0 chars)"⟩

/-- A concrete message dict. -/
def msgW : PyDict :=
  [("id", .int 10), ("text", .str "hello world"),
   ("date", .str "2024-01-01T00:00:00"), ("is_outgoing", .bool true),
   ("sender_id", .int 7), ("sender_name", .str "A")]

/-- The same message with a different timestamp. -/
def msgW2 : PyDict :=
  [("id", .int 10), ("text", .str "hello world"),
   ("date", .str "2025-06-06T12:00:00"), ("is_outgoing", .bool true),
   ("sender_id", .int 7), ("sender_name", .str "A")]

/-- A summaries collection holding one chunk of scope `("s", 1)` whose
`period_dates` are `["2024-01-01"]` and whose summary text is `"OLD"`. -/
def stChunkW : EngineState :=
  ⟨[], [⟨"cid", [1],
    [("session_id", .str "s"), ("chat_id", .int 1),
     ("period_dates", .strList ["2024-01-01"]),
     ("summary", .str "OLD"),
     ("created_at", .str "2024-01-02T00:00:00")]⟩]⟩

/-- A message dict carrying only a parseable date. -/
def msgDateOnlyW : PyDict := [("date", .str "2024-03-05T14:00:00")]

/-- Repeated ingestion: fold `store_message_securely` over a list of
`(session_id, chat_id, message)` triples. -/
def foldStores (o : Oracles) (now : PyDateTime)
    (items : List (String × Int × PyDict)) (st : EngineState) : EngineState :=
  items.foldl (fun acc it => (storeMessageSecurely o now acc it.1 it.2.1 it.2.2).2) st

/-- The tail every assembled prompt keeps when all source blocks are
empty: the three section labels (with empty bodies) and the question
prefix. -/
def c4SectionTail : String :=
  "\nПОСЛЕДНИЕ СООБЩЕНИЯ:\n\nРЕЛЕВАНТНЫЕ ОТРЫВКИ:\n\nПОХОЖИЕ СООБЩЕНИЯ:\n\n\nВОПРОС: "

/-! ## Helper lemmas -/

theorem mem_insertSorted {le : α → α → Bool} {x a : α} {l : List α} :
    a ∈ insertSorted le x l ↔ a = x ∨ a ∈ l := by
  induction l with
  | nil => simp [insertSorted]
  | cons y ys ih =>
      by_cases h : le x y = true
      · rw [insertSorted, if_pos h]
        simp only [List.mem_cons]
      · rw [insertSorted, if_neg h]
        simp only [List.mem_cons, ih]
        tauto

theorem mem_sortByBool {le : α → α → Bool} {a : α} {l : List α} :
    a ∈ sortByBool le l ↔ a ∈ l := by
  induction l with
  | nil => simp [sortByBool]
  | cons x xs ih => simp [sortByBool, mem_insertSorted, ih]

theorem mem_of_mem_qdrantSearch {col : QCollection} {qv : List ℚ}
    {sim : List ℚ → List ℚ → ℚ} {f : QFilter} {limit : Nat} {threshold : ℚ}
    {r : ScoredPoint} (h : r ∈ qdrantSearch col qv sim f limit threshold) :
    ∃ p : QPoint, p ∈ col ∧ evalFilter f p.payload = true ∧
      r.payload = p.payload ∧ r.score = sim qv p.vec := by
  unfold qdrantSearch at h
  have h1 := List.mem_of_mem_take h
  rcases List.mem_map.mp h1 with ⟨p, hp, rfl⟩
  rcases List.mem_filter.mp (mem_sortByBool.mp hp) with ⟨hmem, hcond⟩
  exact ⟨p, hmem, (Bool.and_eq_true _ _ ▸ hcond).1, rfl, rfl⟩

theorem dictGet_map_set (d : PyDict) (k : String) (v : PVal)
    (h : d.any (fun kv => kv.1 = k) = true) :
    dictGet (d.map (fun kv => if kv.1 = k then (k, v) else kv)) k = some v := by
  induction d with
  | nil => simp at h
  | cons a tl ih =>
      by_cases ha : a.1 = k
      · simp [dictGet, List.find?, ha]
      · have htl : tl.any (fun kv => kv.1 = k) = true := by
          simp [List.any_cons, ha] at h
          simpa using h
        simpa [dictGet, List.find?, ha] using ih htl

theorem dictGet_append_single (d : PyDict) (k : String) (v : PVal)
    (h : d.any (fun kv => kv.1 = k) = false) :
    dictGet (d ++ [(k, v)]) k = some v := by
  induction d with
  | nil => simp [dictGet, List.find?]
  | cons a tl ih =>
      simp only [List.any_cons, Bool.or_eq_false_iff, decide_eq_false_iff_not] at h
      rw [List.cons_append]
      unfold dictGet
      rw [List.find?_cons_of_neg _ (by simpa using h.1)]
      exact ih h.2

theorem dictGet_dictSet_self (d : PyDict) (k : String) (v : PVal) :
    dictGet (dictSet d k v) k = some v := by
  unfold dictSet
  by_cases h : d.any (fun kv => kv.1 = k) = true
  · rw [if_pos h]
    exact dictGet_map_set d k v h
  · rw [if_neg h]
    exact dictGet_append_single d k v (Bool.eq_false_iff.mpr h)

theorem dictGet_map_set_ne (d : PyDict) (k k' : String) (v : PVal) (h : k ≠ k') :
    dictGet (d.map (fun kv => if kv.1 = k' then (k', v) else kv)) k = dictGet d k := by
  induction d with
  | nil => rfl
  | cons a tl ih =>
      by_cases ha : a.1 = k'
      · have hak : ¬ (a.1 = k) := by rw [ha]; exact fun hc => h hc.symm
        simp only [List.map_cons, if_pos ha]
        unfold dictGet
        rw [List.find?_cons_of_neg _ (by simp [Ne.symm h]),
            List.find?_cons_of_neg _ (by simpa using hak)]
        exact ih
      · simp only [List.map_cons, if_neg ha]
        by_cases hak : a.1 = k
        · unfold dictGet
          rw [List.find?_cons_of_pos _ (by simpa using hak),
              List.find?_cons_of_pos _ (by simpa using hak)]
        · unfold dictGet
          rw [List.find?_cons_of_neg _ (by simpa using hak),
              List.find?_cons_of_neg _ (by simpa using hak)]
          exact ih

theorem dictGet_append_single_ne (d : PyDict) (k k' : String) (v : PVal) (h : k ≠ k') :
    dictGet (d ++ [(k', v)]) k = dictGet d k := by
  induction d with
  | nil =>
      unfold dictGet
      rw [List.nil_append, List.find?_cons_of_neg _ (by simp [Ne.symm h])]
  | cons a tl ih =>
      rw [List.cons_append]
      unfold dictGet
      by_cases hak : a.1 = k
      · rw [List.find?_cons_of_pos _ (by simpa using hak),
            List.find?_cons_of_pos _ (by simpa using hak)]
      · rw [List.find?_cons_of_neg _ (by simpa using hak),
            List.find?_cons_of_neg _ (by simpa using hak)]
        exact ih

theorem dictGet_dictSet_ne (d : PyDict) (k k' : String) (v : PVal) (h : k ≠ k') :
    dictGet (dictSet d k' v) k = dictGet d k := by
  unfold dictSet
  by_cases hany : d.any (fun kv => kv.1 = k') = true
  · rw [if_pos hany]
    exact dictGet_map_set_ne d k k' v h
  · rw [if_neg hany]
    exact dictGet_append_single_ne d k k' v h

theorem mem_qdrantUpsert {c : QCollection} {p q : QPoint}
    (h : q ∈ qdrantUpsert c p) : q = p ∨ q ∈ c := by
  unfold qdrantUpsert at h
  by_cases hany : c.any (fun r => r.id = p.id) = true
  · rw [if_pos hany] at h
    rcases List.mem_map.mp h with ⟨x, hx, hfx⟩
    by_cases hxid : x.id = p.id
    · left; rw [← hfx, if_pos hxid]
    · right; rw [← hfx, if_neg hxid]; exact hx
  · rw [if_neg hany] at h
    rcases List.mem_append.mp h with hmem | hmem
    · right; exact hmem
    · left; simpa using hmem

theorem append_ne_empty_left (s t : String) (h : s.data ≠ []) : s ++ t ≠ "" := by
  intro he
  apply h
  have hd := congrArg String.data he
  rw [String.data_append] at hd
  exact (List.append_eq_nil.mp hd).1

/-! ## Claims -/

/-- C1: with the default `include_other_chats = False`, every point
`find_similar_messages_secure` returns carries the requested `session_id`
and `chat_id` in its payload, whatever else the messages collection
contains, whatever the similarity scoring prefers, and whatever optional
day-bucket restriction is passed. -/
theorem c1_scope_isolation (o : Oracles) (st : EngineState) (session : String)
    (chat : Int) (queryText : String) (limit : Nat) (scoreThreshold : ℚ)
    (dayBuckets : Option (List String)) (r : SimilarMessage)
    (hmem : r ∈ findSimilarMessagesSecure o st session chat queryText limit
      scoreThreshold false dayBuckets) :
    dictGet r.metadata "session_id" = some (.str session) ∧
    dictGet r.metadata "chat_id" = some (.int chat) := by
  unfold findSimilarMessagesSecure at hmem
  cases hemb : generateEmbedding o queryText with
  | none => rw [hemb] at hmem; simp at hmem
  | some qv =>
      rw [hemb] at hmem
      simp only [] at hmem
      rcases List.mem_map.mp hmem with ⟨sp, hsp, rfl⟩
      obtain ⟨p, _, hfilt, hpay, _⟩ := mem_of_mem_qdrantSearch hsp
      have hall := List.all_eq_true.mp hfilt
      have hsess := hall (FCond.matchVal "session_id" (.str session)) (by simp)
      have hchat := hall (FCond.matchVal "chat_id" (.int chat)) (by simp)
      refine ⟨?_, ?_⟩
      · show dictGet sp.payload "session_id" = some (.str session)
        rw [hpay]
        exact of_decide_eq_true hsess
      · show dictGet sp.payload "chat_id" = some (.int chat)
        rw [hpay]
        exact of_decide_eq_true hchat

/-- C1 witness: a concrete search over `stScopeW` returns `simResW`, and
its payload carries the scope. -/
theorem c1_scope_isolation_witness :
    dictGet simResW.metadata "session_id" = some (.str "s") ∧
    dictGet simResW.metadata "chat_id" = some (.int 1) :=
  c1_scope_isolation oW stScopeW "s" 1 "q" 5 (mkRat 25 100) none simResW (by decide)

theorem dictTruthyAt_set_str (s : PyDict) (k msg : String) (h : msg ≠ "") :
    dictTruthyAt (dictSet s k (.str msg)) k = true := by
  unfold dictTruthyAt
  rw [dictGet_dictSet_self]
  simpa [pyTruthy] using h

theorem runAgent_raise (name : String) (agent : AgentFn) (st : PyDict) (e : String)
    (h : agent st = .error e) :
    runAgent name agent st =
      dictSet st "error" (.str ("An error occurred in " ++ name ++ ": " ++ e)) := by
  unfold runAgent
  rw [h]

/-- C2: whenever any stage of the Analyst → Context → Relevance → Writer →
Critic sequence raises (given that the workflow reached it: every earlier
stage left the error slot falsy), `ChiefAgent.execute` returns the state
reached so far with the error slot set to "An error occurred in
{stage}: {e}", that slot is non-empty (truthy), and the result does not
depend on any later stage's agent — no later stage runs. -/
theorem c2_pipeline_short_circuit
    (analyst contextAgent relevance writer critic : AgentFn)
    (st : PyDict) (e : String) :
    (analyst st = .error e →
      (∀ c' r' w' k' : AgentFn, chiefExecute analyst c' r' w' k' st =
        dictSet st "error" (.str ("An error occurred in AnalystAgent: " ++ e))) ∧
      dictTruthyAt (chiefExecute analyst contextAgent relevance writer critic st)
        "error" = true) ∧
    (dictTruthyAt (runAgent "AnalystAgent" analyst st) "error" = false →
      contextAgent (runAgent "AnalystAgent" analyst st) = .error e →
      (∀ r' w' k' : AgentFn, chiefExecute analyst contextAgent r' w' k' st =
        dictSet (runAgent "AnalystAgent" analyst st) "error"
          (.str ("An error occurred in ContextAgent: " ++ e))) ∧
      dictTruthyAt (chiefExecute analyst contextAgent relevance writer critic st)
        "error" = true) ∧
    (dictTruthyAt (runAgent "AnalystAgent" analyst st) "error" = false →
      dictTruthyAt (runAgent "ContextAgent" contextAgent
        (runAgent "AnalystAgent" analyst st)) "error" = false →
      relevance (runAgent "ContextAgent" contextAgent
        (runAgent "AnalystAgent" analyst st)) = .error e →
      (∀ w' k' : AgentFn, chiefExecute analyst contextAgent relevance w' k' st =
        dictSet (runAgent "ContextAgent" contextAgent
            (runAgent "AnalystAgent" analyst st)) "error"
          (.str ("An error occurred in RelevanceAgent: " ++ e))) ∧
      dictTruthyAt (chiefExecute analyst contextAgent relevance writer critic st)
        "error" = true) ∧
    (dictTruthyAt (runAgent "AnalystAgent" analyst st) "error" = false →
      dictTruthyAt (runAgent "ContextAgent" contextAgent
        (runAgent "AnalystAgent" analyst st)) "error" = false →
      dictTruthyAt (runAgent "RelevanceAgent" relevance
        (runAgent "ContextAgent" contextAgent
          (runAgent "AnalystAgent" analyst st))) "error" = false →
      writer (runAgent "RelevanceAgent" relevance
        (runAgent "ContextAgent" contextAgent
          (runAgent "AnalystAgent" analyst st))) = .error e →
      (∀ k' : AgentFn, chiefExecute analyst contextAgent relevance writer k' st =
        dictSet (runAgent "RelevanceAgent" relevance
            (runAgent "ContextAgent" contextAgent
              (runAgent "AnalystAgent" analyst st))) "error"
          (.str ("An error occurred in WriterAgent: " ++ e))) ∧
      dictTruthyAt (chiefExecute analyst contextAgent relevance writer critic st)
        "error" = true) ∧
    (dictTruthyAt (runAgent "AnalystAgent" analyst st) "error" = false →
      dictTruthyAt (runAgent "ContextAgent" contextAgent
        (runAgent "AnalystAgent" analyst st)) "error" = false →
      dictTruthyAt (runAgent "RelevanceAgent" relevance
        (runAgent "ContextAgent" contextAgent
          (runAgent "AnalystAgent" analyst st))) "error" = false →
      dictTruthyAt (runAgent "WriterAgent" writer
        (runAgent "RelevanceAgent" relevance
          (runAgent "ContextAgent" contextAgent
            (runAgent "AnalystAgent" analyst st)))) "error" = false →
      critic (runAgent "WriterAgent" writer
        (runAgent "RelevanceAgent" relevance
          (runAgent "ContextAgent" contextAgent
            (runAgent "AnalystAgent" analyst st)))) = .error e →
      chiefExecute analyst contextAgent relevance writer critic st =
        dictSet (runAgent "WriterAgent" writer
            (runAgent "RelevanceAgent" relevance
              (runAgent "ContextAgent" contextAgent
                (runAgent "AnalystAgent" analyst st)))) "error"
          (.str ("An error occurred in CriticAgent: " ++ e)) ∧
      dictTruthyAt (chiefExecute analyst contextAgent relevance writer critic st)
        "error" = true) := by
  refine ⟨fun h => ?_, fun h1 h => ?_, fun h1 h2 h => ?_, fun h1 h2 h3 h => ?_,
    fun h1 h2 h3 h4 h => ?_⟩
  · have hrun : runAgent "AnalystAgent" analyst st =
        dictSet st "error" (.str ("An error occurred in AnalystAgent: " ++ e)) := by
      rw [runAgent_raise _ _ _ _ h]
      rfl
    have htr := dictTruthyAt_set_str st "error"
      ("An error occurred in AnalystAgent: " ++ e)
      (append_ne_empty_left _ _ (by decide))
    have hall : ∀ c' r' w' k' : AgentFn, chiefExecute analyst c' r' w' k' st =
        dictSet st "error" (.str ("An error occurred in AnalystAgent: " ++ e)) := by
      intro c' r' w' k'
      simp only [chiefExecute, hrun, htr, if_true]
    exact ⟨hall, by rw [hall contextAgent relevance writer critic]; exact htr⟩
  · have hrun : runAgent "ContextAgent" contextAgent
          (runAgent "AnalystAgent" analyst st) =
        dictSet (runAgent "AnalystAgent" analyst st) "error"
          (.str ("An error occurred in ContextAgent: " ++ e)) := by
      rw [runAgent_raise _ _ _ _ h]
      rfl
    have htr := dictTruthyAt_set_str (runAgent "AnalystAgent" analyst st) "error"
      ("An error occurred in ContextAgent: " ++ e)
      (append_ne_empty_left _ _ (by decide))
    have hall : ∀ r' w' k' : AgentFn, chiefExecute analyst contextAgent r' w' k' st =
        dictSet (runAgent "AnalystAgent" analyst st) "error"
          (.str ("An error occurred in ContextAgent: " ++ e)) := by
      intro r' w' k'
      simp only [chiefExecute, h1, Bool.false_eq_true, if_false, hrun, htr, if_true]
    exact ⟨hall, by rw [hall relevance writer critic]; exact htr⟩
  · have hrun : runAgent "RelevanceAgent" relevance
          (runAgent "ContextAgent" contextAgent
            (runAgent "AnalystAgent" analyst st)) =
        dictSet (runAgent "ContextAgent" contextAgent
            (runAgent "AnalystAgent" analyst st)) "error"
          (.str ("An error occurred in RelevanceAgent: " ++ e)) := by
      rw [runAgent_raise _ _ _ _ h]
      rfl
    have htr := dictTruthyAt_set_str (runAgent "ContextAgent" contextAgent
        (runAgent "AnalystAgent" analyst st)) "error"
      ("An error occurred in RelevanceAgent: " ++ e)
      (append_ne_empty_left _ _ (by decide))
    have hall : ∀ w' k' : AgentFn, chiefExecute analyst contextAgent relevance w' k' st =
        dictSet (runAgent "ContextAgent" contextAgent
            (runAgent "AnalystAgent" analyst st)) "error"
          (.str ("An error occurred in RelevanceAgent: " ++ e)) := by
      intro w' k'
      simp only [chiefExecute, h1, h2, Bool.false_eq_true, if_false, hrun, htr, if_true]
    exact ⟨hall, by rw [hall writer critic]; exact htr⟩
  · have hrun : runAgent "WriterAgent" writer
          (runAgent "RelevanceAgent" relevance
            (runAgent "ContextAgent" contextAgent
              (runAgent "AnalystAgent" analyst st))) =
        dictSet (runAgent "RelevanceAgent" relevance
            (runAgent "ContextAgent" contextAgent
              (runAgent "AnalystAgent" analyst st))) "error"
          (.str ("An error occurred in WriterAgent: " ++ e)) := by
      rw [runAgent_raise _ _ _ _ h]
      rfl
    have htr := dictTruthyAt_set_str (runAgent "RelevanceAgent" relevance
        (runAgent "ContextAgent" contextAgent
          (runAgent "AnalystAgent" analyst st))) "error"
      ("An error occurred in WriterAgent: " ++ e)
      (append_ne_empty_left _ _ (by decide))
    have hall : ∀ k' : AgentFn, chiefExecute analyst contextAgent relevance writer k' st =
        dictSet (runAgent "RelevanceAgent" relevance
            (runAgent "ContextAgent" contextAgent
              (runAgent "AnalystAgent" analyst st))) "error"
          (.str ("An error occurred in WriterAgent: " ++ e)) := by
      intro k'
      simp only [chiefExecute, h1, h2, h3, Bool.false_eq_true, if_false, hrun, htr,
        if_true]
    exact ⟨hall, by rw [hall critic]; exact htr⟩
  · have hrun : runAgent "CriticAgent" critic
          (runAgent "WriterAgent" writer
            (runAgent "RelevanceAgent" relevance
              (runAgent "ContextAgent" contextAgent
                (runAgent "AnalystAgent" analyst st)))) =
        dictSet (runAgent "WriterAgent" writer
            (runAgent "RelevanceAgent" relevance
              (runAgent "ContextAgent" contextAgent
                (runAgent "AnalystAgent" analyst st)))) "error"
          (.str ("An error occurred in CriticAgent: " ++ e)) := by
      rw [runAgent_raise _ _ _ _ h]
      rfl
    have htr := dictTruthyAt_set_str (runAgent "WriterAgent" writer
        (runAgent "RelevanceAgent" relevance
          (runAgent "ContextAgent" contextAgent
            (runAgent "AnalystAgent" analyst st)))) "error"
      ("An error occurred in CriticAgent: " ++ e)
      (append_ne_empty_left _ _ (by decide))
    have hall : chiefExecute analyst contextAgent relevance writer critic st =
        dictSet (runAgent "WriterAgent" writer
            (runAgent "RelevanceAgent" relevance
              (runAgent "ContextAgent" contextAgent
                (runAgent "AnalystAgent" analyst st)))) "error"
          (.str ("An error occurred in CriticAgent: " ++ e)) := by
      simp only [chiefExecute, h1, h2, h3, h4, Bool.false_eq_true, if_false, hrun]
    exact ⟨hall, by rw [hall]; exact htr⟩

/-- C2 witness: identity agents in front of a raising Writer — the
result names the WriterAgent and is independent of the Critic. -/
theorem c2_pipeline_short_circuit_witness :
    (∀ k' : AgentFn,
      chiefExecute (fun s => .ok s) (fun s => .ok s) (fun s => .ok s)
        (fun _ => .error "boom") k' [("query", .str "q")] =
      dictSet (runAgent "RelevanceAgent" (fun s => .ok s)
          (runAgent "ContextAgent" (fun s => .ok s)
            (runAgent "AnalystAgent" (fun s => .ok s) [("query", .str "q")]))) "error"
        (.str ("An error occurred in WriterAgent: " ++ "boom"))) ∧
    dictTruthyAt (chiefExecute (fun s => .ok s) (fun s => .ok s) (fun s => .ok s)
      (fun _ => .error "boom") (fun s => .ok s) [("query", .str "q")]) "error" = true :=
  (c2_pipeline_short_circuit (fun s => .ok s) (fun s => .ok s) (fun s => .ok s)
      (fun _ => .error "boom") (fun s => .ok s) [("query", .str "q")]
      "boom").2.2.2.1 (by decide) (by decide) (by decide) rfl

theorem dayBucket_extract (now : PyDateTime) (msg : PyDict) :
    dictGetStr (extractSafeMetadata now msg) "day_bucket" "" =
      fmtDate (extractSafeMetadataDate now msg).date := by
  simp [extractSafeMetadata, dictGetStr, dictGet, List.find?]

/-- C6: the day bucket of an ISO-naive timestamp is its date part
(concretely, `"2024-03-05T14:00:00"` gives `"2024-03-05"` under any
clock); the ISO-with-offset and relative-minutes encodings are handled
(the latter shifting the concrete clock `nowW`, 2024-03-06T00:30, back
across midnight to `"2024-03-05"`); and any unparseable or missing date
string falls back to the current date. -/
theorem c6_day_bucket_derivation (now : PyDateTime) (s : String)
    (h : parseMsgDate s = none) :
    dictGetStr (extractSafeMetadata now [("date", PVal.str "2024-03-05T14:00:00")])
      "day_bucket" "" = "2024-03-05" ∧
    dictGetStr (extractSafeMetadata now [("date", PVal.str "2024-03-05T14:00:00+02:00")])
      "day_bucket" "" = "2024-03-05" ∧
    dictGetStr (extractSafeMetadata nowW [("date", PVal.str "41+00:00")])
      "day_bucket" "" = "2024-03-05" ∧
    dictGetStr (extractSafeMetadata now [("date", PVal.str s)])
      "day_bucket" "" = fmtDate now.date ∧
    dictGetStr (extractSafeMetadata now ([] : PyDict))
      "day_bucket" "" = fmtDate now.date := by
  have h1 : extractSafeMetadataDate now [("date", PVal.str "2024-03-05T14:00:00")] =
      ⟨⟨2024, 3, 5⟩, 14, 0, 0⟩ := rfl
  have h2 : extractSafeMetadataDate now [("date", PVal.str "2024-03-05T14:00:00+02:00")] =
      ⟨⟨2024, 3, 5⟩, 14, 0, 0⟩ := rfl
  have h5 : extractSafeMetadataDate now ([] : PyDict) = now := rfl
  refine ⟨?_, ?_, by decide, ?_, ?_⟩
  · rw [dayBucket_extract, h1]; rfl
  · rw [dayBucket_extract, h2]; rfl
  · rw [dayBucket_extract]
    unfold extractSafeMetadataDate
    have hget : dictGetStr [("date", PVal.str s)] "date" "" = s := rfl
    rw [hget]
    by_cases hs : s = ""
    · rw [if_pos hs]
    · rw [if_neg hs, h]; rfl
  · rw [dayBucket_extract, h5]

/-- C6 witness: the conjunction at the concrete clock `nowW` and the
unparseable date string `"not-a-date"`. -/
theorem c6_day_bucket_derivation_witness :
    dictGetStr (extractSafeMetadata nowW [("date", PVal.str "2024-03-05T14:00:00")])
      "day_bucket" "" = "2024-03-05" ∧
    dictGetStr (extractSafeMetadata nowW [("date", PVal.str "2024-03-05T14:00:00+02:00")])
      "day_bucket" "" = "2024-03-05" ∧
    dictGetStr (extractSafeMetadata nowW [("date", PVal.str "41+00:00")])
      "day_bucket" "" = "2024-03-05" ∧
    dictGetStr (extractSafeMetadata nowW [("date", PVal.str "not-a-date")])
      "day_bucket" "" = fmtDate nowW.date ∧
    dictGetStr (extractSafeMetadata nowW ([] : PyDict))
      "day_bucket" "" = fmtDate nowW.date :=
  c6_day_bucket_derivation nowW "not-a-date" (by decide)

theorem relevanceTier_spec (s : ℚ) :
    (relevanceTier s = "high" ↔ mkRat 85 100 < s) ∧
    (relevanceTier s = "medium" ↔ mkRat 75 100 < s ∧ s ≤ mkRat 85 100) ∧
    (relevanceTier s = "low" ↔ s ≤ mkRat 75 100) := by
  unfold relevanceTier
  by_cases h1 : s > mkRat 85 100
  · rw [if_pos h1]
    have hnm : mkRat 75 100 < s :=
      lt_of_le_of_lt (by decide : (mkRat 75 100 : ℚ) ≤ mkRat 85 100) h1
    refine ⟨⟨fun _ => h1, fun _ => rfl⟩, ?_, ?_⟩
    · exact ⟨fun hc => absurd hc (by decide),
        fun hle => absurd h1 (not_lt.mpr hle.2)⟩
    · exact ⟨fun hc => absurd hc (by decide),
        fun hle => absurd hnm (not_lt.mpr hle)⟩
  · rw [if_neg h1]
    have hle85 : s ≤ mkRat 85 100 := not_lt.mp h1
    by_cases h2 : s > mkRat 75 100
    · rw [if_pos h2]
      refine ⟨?_, ⟨fun _ => ⟨h2, hle85⟩, fun _ => rfl⟩, ?_⟩
      · exact ⟨fun hc => absurd hc (by decide), fun hgt => absurd hgt h1⟩
      · exact ⟨fun hc => absurd hc (by decide),
          fun hle => absurd h2 (not_lt.mpr hle)⟩
    · rw [if_neg h2]
      have hle75 : s ≤ mkRat 75 100 := not_lt.mp h2
      refine ⟨?_, ?_, ⟨fun _ => hle75, fun _ => rfl⟩⟩
      · exact ⟨fun hc => absurd hc (by decide), fun hgt => absurd hgt h1⟩
      · exact ⟨fun hc => absurd hc (by decide), fun hgt => absurd hgt.1 h2⟩

/-- C7 counterexample to the claim as stated: over `stScopeW` with a
similarity scoring that yields exactly 0.85 (`17/20`, what the Python
float literal `0.85` denotes in the comparison `score > 0.85`), the
returned hit has score at least 0.85 but tier `"medium"`, not `"high"`,
because the source comparison is strict. -/
theorem c7_counterexample :
    simResW ∈ findSimilarMessagesSecure oW stScopeW "s" 1 "q" 5 (mkRat 25 100)
      false none ∧
    mkRat 85 100 ≤ simResW.score ∧
    simResW.relevance = "medium" ∧
    simResW.relevance ≠ "high" := by decide

/-- C7 amended: every hit of `find_similar_messages_secure` is tiered
`"high"` exactly when its score is strictly above 0.85, `"medium"`
exactly when it is strictly above 0.75 and at most 0.85, and `"low"`
exactly when it is at most 0.75 (`mkRat 85 100` and `mkRat 75 100` are
the exact values 0.85 and 0.75). -/
theorem c7_amended (o : Oracles) (st : EngineState) (session : String)
    (chat : Int) (queryText : String) (limit : Nat) (scoreThreshold : ℚ)
    (includeOtherChats : Bool) (dayBuckets : Option (List String))
    (r : SimilarMessage)
    (hmem : r ∈ findSimilarMessagesSecure o st session chat queryText limit
      scoreThreshold includeOtherChats dayBuckets) :
    (r.relevance = "high" ↔ mkRat 85 100 < r.score) ∧
    (r.relevance = "medium" ↔ mkRat 75 100 < r.score ∧ r.score ≤ mkRat 85 100) ∧
    (r.relevance = "low" ↔ r.score ≤ mkRat 75 100) := by
  unfold findSimilarMessagesSecure at hmem
  cases hemb : generateEmbedding o queryText with
  | none => rw [hemb] at hmem; simp at hmem
  | some qv =>
      rw [hemb] at hmem
      simp only [] at hmem
      rcases List.mem_map.mp hmem with ⟨sp, _, rfl⟩
      exact relevanceTier_spec sp.score

/-- C7 witness: the amended tier characterization at the concrete hit
`simResW`. -/
theorem c7_amended_witness :
    (simResW.relevance = "high" ↔ mkRat 85 100 < simResW.score) ∧
    (simResW.relevance = "medium" ↔
      mkRat 75 100 < simResW.score ∧ simResW.score ≤ mkRat 85 100) ∧
    (simResW.relevance = "low" ↔ simResW.score ≤ mkRat 75 100) :=
  c7_amended oW stScopeW "s" 1 "q" 5 (mkRat 25 100) false none simResW (by decide)

theorem storeMessage_success (o : Oracles) (now : PyDateTime) (st : EngineState)
    (session : String) (chat : Int) (msg : PyDict)
    (h : (storeMessageSecurely o now st session chat msg).1 = true) :
    ¬ (pyStrip (dictGetStr msg "text" "") = "" ∨
        (pyStrip (dictGetStr msg "text" "")).length < 3) ∧
    ∃ emb, generateEmbedding o (pyStrip (dictGetStr msg "text" "")) = some emb ∧
      (storeMessageSecurely o now st session chat msg).2 =
        { st with messages := (qdrantUpsert st.messages
            ⟨generatePointId session chat (dictGetInt msg "id" 0), emb,
              storedMessagePayload now session chat msg⟩) } := by
  simp only [storeMessageSecurely] at h ⊢
  by_cases hguard : (pyStrip (dictGetStr msg "text" "") = "" ∨
      (pyStrip (dictGetStr msg "text" "")).length < 3)
  · rw [if_pos hguard] at h
    simp at h
  · rw [if_neg hguard] at h ⊢
    refine ⟨hguard, ?_⟩
    cases hemb : generateEmbedding o (pyStrip (dictGetStr msg "text" "")) with
    | none => rw [hemb] at h; simp at h
    | some emb => exact ⟨emb, rfl, rfl⟩

theorem storedMessagePayload_text (now : PyDateTime) (session : String)
    (chat : Int) (msg : PyDict) :
    dictGet (storedMessagePayload now session chat msg) "text" =
      some (.str (pyStrip (dictGetStr msg "text" ""))) := by
  unfold storedMessagePayload
  rw [dictGet_dictSet_ne _ _ _ _ (by decide), dictGet_dictSet_self]

theorem storedMessagePayload_text_hash (now : PyDateTime) (session : String)
    (chat : Int) (msg : PyDict) :
    dictGet (storedMessagePayload now session chat msg) "text_hash" =
      some (.str (sha256Hex (pyStrip (dictGetStr msg "text" "")))) := by
  unfold storedMessagePayload
  rw [dictGet_dictSet_self]

/-- C8: every point the store operation persists carries the full raw
(stripped) message text under the payload key `"text"`, next to its
SHA-256 `text_hash` — for every accepted message and every provider
configuration — while `get_collection_stats`, whenever the vector-store
client exists, reports `"raw_text_storage": "disabled"`. -/
theorem c8_raw_text_stored_stats_disabled (o : Oracles) (now : PyDateTime)
    (st : EngineState) (session : String) (chat : Int) (msg : PyDict)
    (h : (storeMessageSecurely o now st session chat msg).1 = true) :
    (∃ pt : QPoint,
      (storeMessageSecurely o now st session chat msg).2.messages =
        qdrantUpsert st.messages pt ∧
      dictGet pt.payload "text" = some (.str (pyStrip (dictGetStr msg "text" ""))) ∧
      dictGet pt.payload "text_hash" =
        some (.str (sha256Hex (pyStrip (dictGetStr msg "text" ""))))) ∧
    (∀ (es : EngineState) (retentionDays : Nat),
      getCollectionStats (some es) retentionDays =
        .stats [("messages", es.messages.length), ("conversations", 0),
          ("user_patterns", 0), ("summaries", es.summaries.length)]
          "embedding-001" 768 retentionDays "healthy" "enabled" "disabled") := by
  obtain ⟨_, emb, _, hres⟩ := storeMessage_success o now st session chat msg h
  refine ⟨⟨⟨generatePointId session chat (dictGetInt msg "id" 0), emb,
    storedMessagePayload now session chat msg⟩, ?_, ?_, ?_⟩, fun es r => rfl⟩
  · rw [hres]
  · exact storedMessagePayload_text now session chat msg
  · exact storedMessagePayload_text_hash now session chat msg

/-- C8 witness: a concrete accepted store of `msgW` plus the stats shape
at a concrete state. -/
theorem c8_raw_text_stored_stats_disabled_witness :
    (∃ pt : QPoint,
      (storeMessageSecurely oW nowW ⟨[], []⟩ "s" 1 msgW).2.messages =
        qdrantUpsert (⟨[], []⟩ : EngineState).messages pt ∧
      dictGet pt.payload "text" = some (.str (pyStrip (dictGetStr msgW "text" ""))) ∧
      dictGet pt.payload "text_hash" =
        some (.str (sha256Hex (pyStrip (dictGetStr msgW "text" ""))))) ∧
    (∀ (es : EngineState) (retentionDays : Nat),
      getCollectionStats (some es) retentionDays =
        .stats [("messages", es.messages.length), ("conversations", 0),
          ("user_patterns", 0), ("summaries", es.summaries.length)]
          "embedding-001" 768 retentionDays "healthy" "enabled" "disabled") :=
  c8_raw_text_stored_stats_disabled oW nowW ⟨[], []⟩ "s" 1 msgW (by decide)

theorem storeMessage_failure (o : Oracles) (now : PyDateTime) (st : EngineState)
    (session : String) (chat : Int) (msg : PyDict)
    (h : (storeMessageSecurely o now st session chat msg).1 = false) :
    (storeMessageSecurely o now st session chat msg).2 = st := by
  simp only [storeMessageSecurely] at h ⊢
  by_cases hguard : (pyStrip (dictGetStr msg "text" "") = "" ∨
      (pyStrip (dictGetStr msg "text" "")).length < 3)
  · rw [if_pos hguard]
  · rw [if_neg hguard] at h ⊢
    cases hemb : generateEmbedding o (pyStrip (dictGetStr msg "text" "")) with
    | none => rfl
    | some emb =>
        rw [hemb] at h
        exact Bool.noConfusion h

theorem storedMessagePayload_no_retention (now : PyDateTime) (session : String)
    (chat : Int) (msg : PyDict) :
    dictGet (storedMessagePayload now session chat msg) "retention_expires" = none := by
  unfold storedMessagePayload
  rw [dictGet_dictSet_ne _ _ _ _ (by decide), dictGet_dictSet_ne _ _ _ _ (by decide),
      dictGet_dictSet_ne _ _ _ _ (by decide), dictGet_dictSet_ne _ _ _ _ (by decide)]
  rfl

theorem store_preserves_no_retention (o : Oracles) (now : PyDateTime)
    (st : EngineState) (session : String) (chat : Int) (msg : PyDict)
    (hst : ∀ pt ∈ st.messages, dictGet pt.payload "retention_expires" = none) :
    ∀ pt ∈ (storeMessageSecurely o now st session chat msg).2.messages,
      dictGet pt.payload "retention_expires" = none := by
  intro pt hpt
  by_cases hok : (storeMessageSecurely o now st session chat msg).1 = true
  · obtain ⟨_, emb, _, hres⟩ := storeMessage_success o now st session chat msg hok
    rw [hres] at hpt
    rcases mem_qdrantUpsert hpt with hpt1 | hpt1
    · rw [hpt1]
      exact storedMessagePayload_no_retention now session chat msg
    · exact hst pt hpt1
  · rw [storeMessage_failure o now st session chat msg
      (Bool.eq_false_iff.mpr hok)] at hpt
    exact hst pt hpt

theorem foldStores_no_retention (o : Oracles) (now : PyDateTime)
    (items : List (String × Int × PyDict)) :
    ∀ st : EngineState,
      (∀ pt ∈ st.messages, dictGet pt.payload "retention_expires" = none) →
      ∀ pt ∈ (foldStores o now items st).messages,
        dictGet pt.payload "retention_expires" = none := by
  induction items with
  | nil =>
      intro st hst pt hpt
      exact hst pt hpt
  | cons it tl ih =>
      intro st hst
      simp only [foldStores, List.foldl_cons] at *
      exact ih _ (store_preserves_no_retention o now st it.1 it.2.1 it.2.2 hst)

theorem cleanup_no_retention (now2 : PyDateTime) (st : EngineState)
    (hst : ∀ pt ∈ st.messages, dictGet pt.payload "retention_expires" = none) :
    cleanupExpiredMessages now2 st = (0, st) := by
  simp only [cleanupExpiredMessages, qdrantScroll]
  have hfilt : st.messages.filter
      (fun p => evalFilter ⟨[.rangeLt "retention_expires" (pyIsoformat now2)]⟩
        p.payload) = [] := by
    rw [List.filter_eq_nil_iff]
    intro p hp
    simp [evalFilter, evalCond, hst p hp]
  rw [hfilt]
  simp

/-- C9: no engine operation writes a `retention_expires` payload field —
in particular `store_message_securely` never does — so on a store
populated purely by repeated `store_message_securely` calls (from the
empty store, any scopes, any messages, any providers), the retention
sweep `cleanup_expired_messages` finds nothing: it returns 0 and leaves
the state unchanged. -/
theorem c9_retention_sweep_matches_nothing (o : Oracles) (now now2 : PyDateTime)
    (items : List (String × Int × PyDict)) :
    cleanupExpiredMessages now2 (foldStores o now items ⟨[], []⟩) =
      (0, foldStores o now items ⟨[], []⟩) :=
  cleanup_no_retention now2 _
    (foldStores_no_retention o now items ⟨[], []⟩ (by simp))

theorem qdrantUpsert_idem (c : QCollection) (p : QPoint) :
    qdrantUpsert (qdrantUpsert c p) p = qdrantUpsert c p := by
  unfold qdrantUpsert
  by_cases h : c.any (fun q => q.id = p.id) = true
  · rw [if_pos h]
    have hany2 : (c.map (fun q => if q.id = p.id then p else q)).any
        (fun q => q.id = p.id) = true := by
      rcases List.any_eq_true.mp h with ⟨q, hq, hid⟩
      refine List.any_eq_true.mpr
        ⟨if q.id = p.id then p else q, List.mem_map_of_mem _ hq, ?_⟩
      rw [if_pos (of_decide_eq_true hid)]
      simp
    rw [if_pos hany2, List.map_map]
    refine List.map_congr_left (fun q _ => ?_)
    by_cases hqi : q.id = p.id <;> simp [Function.comp, hqi]
  · rw [if_neg h]
    have hany2 : ((c ++ [p]).any (fun q => q.id = p.id)) = true :=
      List.any_eq_true.mpr ⟨p, by simp, by simp⟩
    rw [if_pos hany2, List.map_append]
    have hc : c.map (fun q => if q.id = p.id then p else q) = c := by
      have hmapid : ∀ q ∈ c, (if q.id = p.id then p else q) = q := by
        intro q hq
        rw [if_neg (fun hc' =>
          h (List.any_eq_true.mpr ⟨q, hq, by simp [hc']⟩))]
      rw [List.map_congr_left hmapid]
      simp
    rw [hc]
    simp

theorem countP_qdrantUpsert (c : QCollection) (p : QPoint)
    (h : (c.map (fun q => q.id)).Nodup) :
    (qdrantUpsert c p).countP (fun q => q.id = p.id) = 1 := by
  unfold qdrantUpsert
  by_cases hany : c.any (fun q => q.id = p.id) = true
  · rw [if_pos hany, List.countP_map]
    have hpt : List.countP
        ((fun q : QPoint => decide (q.id = p.id)) ∘ (fun q => if q.id = p.id then p else q)) c =
        List.countP (fun q : QPoint => decide (q.id = p.id)) c := by
      apply List.countP_congr
      intro q _
      by_cases hqi : q.id = p.id <;> simp [Function.comp, hqi]
    rw [hpt]
    have hc : List.countP (fun q : QPoint => decide (q.id = p.id)) c =
        List.count p.id (c.map (fun q => q.id)) := by
      rw [List.count, List.countP_map]
      apply List.countP_congr
      intro q _
      simp [Function.comp]
    rw [hc]
    apply List.count_eq_one_of_mem h
    rcases List.any_eq_true.mp hany with ⟨q, hq, hid⟩
    exact (of_decide_eq_true hid) ▸ List.mem_map.mpr ⟨q, hq, rfl⟩
  · rw [if_neg hany, List.countP_append]
    have h0 : List.countP (fun q : QPoint => decide (q.id = p.id)) c = 0 := by
      rw [List.countP_eq_zero]
      intro q hq
      simp only [decide_eq_true_eq]
      intro hqp
      exact hany (List.any_eq_true.mpr ⟨q, hq, by simp [hqp]⟩)
    rw [h0]
    simp [List.countP_cons]

/-- C3 counterexample to the claim as stated: two messages that agree on
scope and message id but differ in their timestamp are stored under the
same point ID — the hash input is `f"{session_id}_{chat_id}_{message_id}"`
and does not include the timestamp — so storing both leaves one point,
where a hash of the full (scope, chat, message id, timestamp) tuple would
key them separately. -/
theorem c3_counterexample :
    dictGetStr msgW "date" "" ≠ dictGetStr msgW2 "date" "" ∧
    (storeMessageSecurely oW nowW ⟨[], []⟩ "s" 1 msgW).2.messages.map (fun q => q.id) =
      (storeMessageSecurely oW nowW ⟨[], []⟩ "s" 1 msgW2).2.messages.map (fun q => q.id) ∧
    (storeMessageSecurely oW nowW
      (storeMessageSecurely oW nowW ⟨[], []⟩ "s" 1 msgW).2 "s" 1
      msgW2).2.messages.length = 1 := by decide

/-- C3 amended: the point ID under which `store_message_securely`
persists an accepted message is the stable UUID5 hash of
`(session_id, chat_id, message_id)` — the timestamp is not an input — and
since persistence is an upsert keyed by that ID, storing the same message
again returns `True` and leaves the store unchanged, with exactly one
point under that ID (given the collection's ids were distinct, as a
Qdrant collection's are). -/
theorem c3_amended (o : Oracles) (now : PyDateTime) (st : EngineState)
    (session : String) (chat : Int) (msg : PyDict)
    (h : (storeMessageSecurely o now st session chat msg).1 = true)
    (hnodup : (st.messages.map (fun q => q.id)).Nodup) :
    ∃ pt : QPoint,
      pt.id = generatePointId session chat (dictGetInt msg "id" 0) ∧
      (storeMessageSecurely o now st session chat msg).2.messages =
        qdrantUpsert st.messages pt ∧
      storeMessageSecurely o now
        (storeMessageSecurely o now st session chat msg).2 session chat msg =
        (true, (storeMessageSecurely o now st session chat msg).2) ∧
      (storeMessageSecurely o now st session chat msg).2.messages.countP
        (fun q => q.id = generatePointId session chat (dictGetInt msg "id" 0)) = 1 := by
  obtain ⟨hguard, emb, hemb, hres⟩ := storeMessage_success o now st session chat msg h
  refine ⟨⟨generatePointId session chat (dictGetInt msg "id" 0), emb,
    storedMessagePayload now session chat msg⟩, rfl, by rw [hres], ?_, ?_⟩
  · have hsecond : storeMessageSecurely o now
        (storeMessageSecurely o now st session chat msg).2 session chat msg =
        (true, { (storeMessageSecurely o now st session chat msg).2 with
          messages := (qdrantUpsert
            (storeMessageSecurely o now st session chat msg).2.messages
            ⟨generatePointId session chat (dictGetInt msg "id" 0), emb,
              storedMessagePayload now session chat msg⟩) }) := by
      conv_lhs => rw [storeMessageSecurely]
      rw [if_neg hguard, hemb]
      rfl
    rw [hsecond, hres, qdrantUpsert_idem]
  · rw [hres]
    exact countP_qdrantUpsert st.messages
      ⟨generatePointId session chat (dictGetInt msg "id" 0), emb,
        storedMessagePayload now session chat msg⟩ hnodup

/-- C3 amended witness: the concrete double store of `msgW`. -/
theorem c3_amended_witness :
    ∃ pt : QPoint,
      pt.id = generatePointId "s" 1 (dictGetInt msgW "id" 0) ∧
      (storeMessageSecurely oW nowW ⟨[], []⟩ "s" 1 msgW).2.messages =
        qdrantUpsert (⟨[], []⟩ : EngineState).messages pt ∧
      storeMessageSecurely oW nowW
        (storeMessageSecurely oW nowW ⟨[], []⟩ "s" 1 msgW).2 "s" 1 msgW =
        (true, (storeMessageSecurely oW nowW ⟨[], []⟩ "s" 1 msgW).2) ∧
      (storeMessageSecurely oW nowW ⟨[], []⟩ "s" 1 msgW).2.messages.countP
        (fun q => q.id = generatePointId "s" 1 (dictGetInt msgW "id" 0)) = 1 :=
  c3_amended oW nowW ⟨[], []⟩ "s" 1 msgW (by decide) (by decide)

theorem foldl_ne_nil {α β : Type _} (f : List β → α → List β)
    (hf : ∀ acc x, acc ≠ [] → f acc x ≠ []) (l : List α) :
    ∀ acc, acc ≠ [] → l.foldl f acc ≠ [] := by
  induction l with
  | nil => intro acc h; simpa using h
  | cons x xs ih =>
      intro acc h
      rw [List.foldl_cons]
      exact ih _ (hf acc x h)

theorem pyGroupBy_ne_nil {κ α : Type _} [DecidableEq κ] (key : α → κ)
    (l : List α) (h : l ≠ []) : pyGroupBy key l ≠ [] := by
  cases l with
  | nil => exact absurd rfl h
  | cons x xs =>
      unfold pyGroupBy
      rw [List.foldl_cons]
      refine foldl_ne_nil _ ?_ xs _ ?_
      · intro acc y hacc
        by_cases hany : acc.any (fun kv => kv.1 = key y) = true
        · simp only [if_pos hany]
          simpa [List.map_eq_nil] using hacc
        · simp only [if_neg hany]
          simp
      · simp

/-- C10: whenever `sync_chat_history` reaches the summary phase (forced,
or with no existing messages in the 30-day window) and at least one week
group is formed from the message dates, the three-argument call to the
two-parameter `_generate_and_store_summary` raises `TypeError`, the
enclosing handler converts it to `False`, and the function returns
`False` — although every message has already been stored. -/
theorem c10_sync_returns_false (o : Oracles) (now : PyDateTime)
    (st : EngineState) (session : String) (chat : Int)
    (messages : List PyDict) (forceResync : Bool)
    (hreach : forceResync = true ∨
      getMessagesForPeriod st session chat
        ((List.range 30).map (fun x => dateSubDays now.date x)) 1000 = [])
    (hdays : daysWithMessages now (messages.map (fun m =>
      dictSet (dictSet m "session_id" (.str session)) "chat_id" (.int chat))) ≠ []) :
    (syncChatHistory o now st session chat messages forceResync).1 = false := by
  simp only [syncChatHistory]
  have hcond : ¬ (¬ forceResync = true ∧ getMessagesForPeriod st session chat
      ((List.range 30).map (fun x => dateSubDays now.date x)) 1000 ≠ []) := by
    rcases hreach with h | h
    · exact fun hc => hc.1 h
    · exact fun hc => hc.2 h
  rw [if_neg hcond]
  have hweeks := pyGroupBy_ne_nil (fun d => dateSubDays d (dateToDays d % 7)) _ hdays
  cases hw : pyGroupBy (fun d => dateSubDays d (dateToDays d % 7))
      (daysWithMessages now (messages.map (fun m =>
        dictSet (dictSet m "session_id" (.str session)) "chat_id" (.int chat)))) with
  | nil => exact absurd hw hweeks
  | cons a tl => rfl

/-- C10 witness: one message with a parseable date, forced resync. -/
theorem c10_sync_returns_false_witness :
    (syncChatHistory oW nowW ⟨[], []⟩ "s" 1 [msgDateOnlyW] true).1 = false :=
  c10_sync_returns_false oW nowW ⟨[], []⟩ "s" 1 [msgDateOnlyW] true
    (Or.inl rfl) (by decide)

/-- C5 counterexample to the claim as stated: the summaries collection of
`stChunkW` holds one chunk whose recorded `period_dates` are
`["2024-01-01"]`; a request for 2024-03-05 — a period no stored summary
covers — still returns that chunk's text `"OLD"` verbatim and generates
and stores nothing, because the "existing summary" check is a semantic
similarity search, not a date-coverage check. -/
theorem c5_counterexample :
    getPeriodSummary oW nowW stChunkW "s" 1 [⟨2024, 3, 5⟩] 3 = (some "OLD", stChunkW) ∧
    stChunkW.summaries.map (fun p => dictGet p.payload "period_dates") =
      [some (.strList ["2024-01-01"])] ∧
    fmtDate ⟨2024, 3, 5⟩ = "2024-03-05" ∧
    ¬ ("2024-03-05" ∈ ["2024-01-01"]) := by decide

/-- C5 amended: `get_period_summary` first runs a similarity search
(threshold 0.2, scope-filtered) over the summary chunks with the joined
day-bucket strings as the query; when that search yields at least one
chunk with a non-empty summary text, those summaries are returned joined
verbatim, without touching the store or the completion model (coverage of
the requested dates is not checked); and the generate-and-store path is
taken exactly otherwise - when the search returns nothing, or every
returned chunk lacks a non-empty summary. -/
theorem c5_amended (o : Oracles) (now : PyDateTime) (st : EngineState)
    (session : String) (chat : Int) (dates : List PyDate) (maxChunks : Nat)
    (hs : chunkSummaries (findSimilarChunks o st session chat
      (pyJoin " " (dates.map fmtDate)) maxChunks) ≠ []) :
    getPeriodSummary o now st session chat dates maxChunks =
      (some (pyJoin "\n---\n" (chunkSummaries (findSimilarChunks o st session chat
        (pyJoin " " (dates.map fmtDate)) maxChunks))), st) ∧
    (∀ g', getPeriodSummary { o with genText := g' } now st session chat dates
      maxChunks = getPeriodSummary o now st session chat dates maxChunks) ∧
    (∀ (o2 : Oracles) (st2 : EngineState),
      chunkSummaries (findSimilarChunks o2 st2 session chat
        (pyJoin " " (dates.map fmtDate)) maxChunks) = [] →
      getPeriodSummary o2 now st2 session chat dates maxChunks =
        generatePeriodSummaryPath o2 now st2 session chat dates) := by
  have hex : findSimilarChunks o st session chat
      (pyJoin " " (dates.map fmtDate)) maxChunks ≠ [] := by
    intro h
    apply hs
    rw [h]
    rfl
  have hmain : ∀ (o1 : Oracles),
      findSimilarChunks o1 st session chat
        (pyJoin " " (dates.map fmtDate)) maxChunks =
      findSimilarChunks o st session chat
        (pyJoin " " (dates.map fmtDate)) maxChunks →
      getPeriodSummary o1 now st session chat dates maxChunks =
        (some (pyJoin "\n---\n" (chunkSummaries (findSimilarChunks o st session chat
          (pyJoin " " (dates.map fmtDate)) maxChunks))), st) := by
    intro o1 heq
    simp only [getPeriodSummary]
    rw [heq, if_pos hex, if_pos hs]
  refine ⟨hmain o rfl, fun g' => ?_, fun o2 st2 hmt => ?_⟩
  · rw [hmain { o with genText := g' } rfl, hmain o rfl]
  · simp only [getPeriodSummary]
    by_cases hf : findSimilarChunks o2 st2 session chat
        (pyJoin " " (dates.map fmtDate)) maxChunks = []
    · rw [hf, if_neg (by simp)]
    · rw [if_pos hf, if_neg (fun hc => hc hmt)]

/-- C5 amended witness: the concrete reuse over `stChunkW`. -/
theorem c5_amended_witness :
    getPeriodSummary oW nowW stChunkW "s" 1 [⟨2024, 3, 5⟩] 3 =
      (some (pyJoin "\n---\n" (chunkSummaries (findSimilarChunks oW stChunkW "s" 1
        (pyJoin " " ([(⟨2024, 3, 5⟩ : PyDate)].map fmtDate)) 3))), stChunkW) ∧
    (∀ g', getPeriodSummary { oW with genText := g' } nowW stChunkW "s" 1
      [⟨2024, 3, 5⟩] 3 = getPeriodSummary oW nowW stChunkW "s" 1 [⟨2024, 3, 5⟩] 3) ∧
    (∀ (o2 : Oracles) (st2 : EngineState),
      chunkSummaries (findSimilarChunks o2 st2 "s" 1
        (pyJoin " " ([(⟨2024, 3, 5⟩ : PyDate)].map fmtDate)) 3) = [] →
      getPeriodSummary o2 nowW st2 "s" 1 [⟨2024, 3, 5⟩] 3 =
        generatePeriodSummaryPath o2 nowW st2 "s" 1 [⟨2024, 3, 5⟩]) :=
  c5_amended oW nowW stChunkW "s" 1 [⟨2024, 3, 5⟩] 3 (by decide)

theorem startsWithList_nil (l : List Char) : startsWithList l [] = true := by
  cases l <;> rfl

theorem startsWithList_append (p rest : List Char) :
    startsWithList (p ++ rest) p = true := by
  induction p with
  | nil => exact startsWithList_nil rest
  | cons a as ih => simp [startsWithList, ih]

theorem containsList_nil_pat (l : List Char) : containsList [] l = true := by
  cases l <;> simp [containsList, startsWithList]

theorem containsList_of_append (a sub b : List Char) :
    containsList sub (a ++ (sub ++ b)) = true := by
  induction a with
  | nil =>
      rw [List.nil_append]
      cases sub with
      | nil => exact containsList_nil_pat _
      | cons s ss =>
          have h1 := startsWithList_append (s :: ss) b
          rw [List.cons_append] at h1
          rw [List.cons_append]
          simp [containsList, h1]
  | cons c a' ih =>
      rw [List.cons_append]
      simp [containsList, ih]

theorem strIn_of_append2 (a b mid post s : String)
    (h : s = a ++ (b ++ (mid ++ post))) : strIn mid s = true := by
  subst h
  unfold strIn
  simp only [String.data_append]
  rw [show a.data ++ (b.data ++ (mid.data ++ post.data)) =
    (a.data ++ b.data) ++ (mid.data ++ post.data) from (List.append_assoc _ _ _).symm]
  exact containsList_of_append _ _ _

theorem strEndsWith_of_append2 (a b t s : String) (h : s = a ++ (b ++ t)) :
    strEndsWith s t = true := by
  subst h
  unfold strEndsWith endsWithList
  simp only [String.data_append, List.reverse_append]
  rw [List.append_assoc]
  exact startsWithList_append _ _

theorem string_empty_append (s : String) : "" ++ s = s := by
  apply String.ext
  rw [String.data_append]
  rfl

theorem findSimilarMessagesSecure_empty (o : Oracles) (session : String)
    (chat : Int) (q : String) (limit : Nat) (th : ℚ) (inc : Bool)
    (db : Option (List String)) :
    findSimilarMessagesSecure o ⟨[], []⟩ session chat q limit th inc db = [] := by
  unfold findSimilarMessagesSecure
  cases generateEmbedding o q with
  | none => rfl
  | some qv => simp [qdrantSearch, sortByBool]

theorem findSimilarChunks_empty (o : Oracles) (session : String) (chat : Int)
    (q : String) (limit : Nat) :
    findSimilarChunks o ⟨[], []⟩ session chat q limit = [] := by
  unfold findSimilarChunks
  cases generateEmbedding o q with
  | none => rfl
  | some qv => simp [qdrantSearch, sortByBool]

theorem getMessagesForPeriod_empty (session : String) (chat : Int)
    (dates : List PyDate) (limit : Nat) :
    getMessagesForPeriod ⟨[], []⟩ session chat dates limit = [] := by
  simp [getMessagesForPeriod, qdrantScroll]

theorem getPeriodSummary_empty (o : Oracles) (now : PyDateTime)
    (session : String) (chat : Int) (dates : List PyDate) (mc : Nat) :
    getPeriodSummary o now ⟨[], []⟩ session chat dates mc = (none, ⟨[], []⟩) := by
  simp only [getPeriodSummary]
  rw [findSimilarChunks_empty, if_neg (by simp)]
  rfl

theorem getEnhancedContextSecure_empty_recent (o : Oracles) (session : String)
    (chat : Int) (cm : String) (n : Nat) :
    (getEnhancedContextSecure o ⟨[], []⟩ session chat cm n).recentMessages = [] := by
  simp [getEnhancedContextSecure, qdrantScroll, sortByBool]

theorem pyJoin_nil_eq (sep : String) : pyJoin sep [] = "" := rfl

theorem pyJoin_cons_eq (sep a : String) (as : List String) :
    pyJoin sep (a :: as) = as.foldl (fun acc s => acc ++ sep ++ s) a := rfl

/-- C4 (amended): on the empty store with no provided recent messages — all
sources empty — build_context_for_ai still returns a well-formed prompt that
ends with the final question lines "ВОПРОС: <query>\nОТВЕТ:" containing the
literal query, and the section counters are all zero; however the prompt's
tail is the fixed string c4SectionTail, in which every source-section label
appears with an empty body after it, because the join filters only empty
strings and the labels are pushed unconditionally. -/
theorem c4_amended (o : Oracles) (now : PyDateTime) (session : String) (chat : Int)
    (query : String) (recentLimit chunkLimit : Nat) (chatName : String) :
    (∃ pre : String,
      ((buildContextForAi o now ⟨[], []⟩ session chat query recentLimit chunkLimit
          none chatName).1).prompt =
        pre ++ (c4SectionTail ++ (query ++ "\nОТВЕТ:"))) ∧
    strEndsWith
      ((buildContextForAi o now ⟨[], []⟩ session chat query recentLimit chunkLimit
          none chatName).1).prompt ("ВОПРОС: " ++ (query ++ "\nОТВЕТ:")) = true ∧
    ((buildContextForAi o now ⟨[], []⟩ session chat query recentLimit chunkLimit
        none chatName).1).sections = ⟨0, 0, 0, 0, false⟩ := by
  have hmain : (∃ pre : String,
      ((buildContextForAi o now ⟨[], []⟩ session chat query recentLimit chunkLimit
          none chatName).1).prompt =
        pre ++ (c4SectionTail ++ (query ++ "\nОТВЕТ:"))) ∧
      ((buildContextForAi o now ⟨[], []⟩ session chat query recentLimit chunkLimit
          none chatName).1).sections = ⟨0, 0, 0, 0, false⟩ := by

    have hne : ¬ (("\n\nВОПРОС: " ++ query ++ "\nОТВЕТ:" : String) = "") := by
      apply append_ne_empty_left
      rw [String.data_append]
      intro hc
      exact absurd (List.append_eq_nil.mp hc).1 (by decide)
    simp only [buildContextForAi]
    by_cases hd : (detectTimeRange query now).dates = []
    · have hcond : ((detectTimeRange query now).dates ≠ []) = False :=
        eq_false (fun hne2 => hne2 hd)
      simp only [hcond, if_false,
        getEnhancedContextSecure_empty_recent, findSimilarMessagesSecure_empty,
        findSimilarChunks_empty, getMessagesForPeriod_empty, getPeriodSummary_empty,
        List.map_nil, List.filterMap_nil, List.length_nil, List.take_nil,
        List.nil_append]
      refine ⟨⟨"", ?_⟩, trivial⟩
      have hfilt : List.filter (fun s => decide (s ≠ ""))
          ["\nПОСЛЕДНИЕ СООБЩЕНИЯ:", pyJoin "\n" [], "\nРЕЛЕВАНТНЫЕ ОТРЫВКИ:",
           pyJoin "\n" [], "\nПОХОЖИЕ СООБЩЕНИЯ:", pyJoin "\n" [],
           "\n\nВОПРОС: " ++ query ++ "\nОТВЕТ:"] =
          ["\nПОСЛЕДНИЕ СООБЩЕНИЯ:", "\nРЕЛЕВАНТНЫЕ ОТРЫВКИ:",
           "\nПОХОЖИЕ СООБЩЕНИЯ:", "\n\nВОПРОС: " ++ query ++ "\nОТВЕТ:"] := by
        simp [hne, pyJoin]
      rw [hfilt, pyJoin_cons_eq]
      simp only [List.foldl_cons, List.foldl_nil]
      rw [string_empty_append,
        (show c4SectionTail = "\nПОСЛЕДНИЕ СООБЩЕНИЯ:" ++ ("\n" ++ ("\nРЕЛЕВАНТНЫЕ ОТРЫВКИ:"
          ++ ("\n" ++ ("\nПОХОЖИЕ СООБЩЕНИЯ:" ++ ("\n" ++ "\n\nВОПРОС: "))))) from rfl)]
      simp only [String.append_assoc]
    · have hcond : ((detectTimeRange query now).dates ≠ []) = True := eq_true hd
      have hp1 : ¬ (("ЗАПРОШЕННЫЙ ПЕРИОД: " ++ (detectTimeRange query now).periodType : String) = "") :=
        append_ne_empty_left _ _ (by decide)
      simp only [hcond, if_true,
        getEnhancedContextSecure_empty_recent, findSimilarMessagesSecure_empty,
        findSimilarChunks_empty, getMessagesForPeriod_empty, getPeriodSummary_empty,
        List.map_nil, List.filterMap_nil, List.length_nil, List.take_nil,
        List.nil_append]
      have hif : (if (([] : List PyDict) ≠ []) then pySliceLastN ([] : List PyDict) recentLimit else []) = ([] : List PyDict) := by
        simp
      rw [hif]
      simp only [List.map_nil, List.length_nil, List.append_nil, List.cons_append,
        List.nil_append]
      refine ⟨⟨"ЗАПРОШЕННЫЙ ПЕРИОД: " ++ (detectTimeRange query now).periodType ++ "\n"
        ++ "ВСЕГО СООБЩЕНИЙ ЗА ПЕРИОД: 0" ++ "\n", ?_⟩, trivial⟩
      rw [(show (toString (0 : Nat) : String) = "0" from rfl)]
      have hfilt2 : List.filter (fun s => decide (s ≠ ""))
          ["ЗАПРОШЕННЫЙ ПЕРИОД: " ++ (detectTimeRange query now).periodType,
           "ВСЕГО СООБЩЕНИЙ ЗА ПЕРИОД: " ++ "0",
           "\nПОСЛЕДНИЕ СООБЩЕНИЯ:", pyJoin "\n" [], "\nРЕЛЕВАНТНЫЕ ОТРЫВКИ:",
           pyJoin "\n" [], "\nПОХОЖИЕ СООБЩЕНИЯ:", pyJoin "\n" [],
           "\n\nВОПРОС: " ++ query ++ "\nОТВЕТ:"] =
          ["ЗАПРОШЕННЫЙ ПЕРИОД: " ++ (detectTimeRange query now).periodType,
           "ВСЕГО СООБЩЕНИЙ ЗА ПЕРИОД: " ++ "0",
           "\nПОСЛЕДНИЕ СООБЩЕНИЯ:", "\nРЕЛЕВАНТНЫЕ ОТРЫВКИ:",
           "\nПОХОЖИЕ СООБЩЕНИЯ:", "\n\nВОПРОС: " ++ query ++ "\nОТВЕТ:"] := by
        simp [hne, hp1, pyJoin]
      rw [hfilt2, pyJoin_cons_eq]
      simp only [List.foldl_cons, List.foldl_nil]
      rw [(show c4SectionTail = "\nПОСЛЕДНИЕ СООБЩЕНИЯ:" ++ ("\n" ++ ("\nРЕЛЕВАНТНЫЕ ОТРЫВКИ:"
          ++ ("\n" ++ ("\nПОХОЖИЕ СООБЩЕНИЯ:" ++ ("\n" ++ "\n\nВОПРОС: "))))) from rfl),
        (show ("ВСЕГО СООБЩЕНИЙ ЗА ПЕРИОД: " ++ "0" : String) = "ВСЕГО СООБЩЕНИЙ ЗА ПЕРИОД: 0" from rfl)]
      simp only [String.append_assoc]

  refine ⟨hmain.1, ?_, hmain.2⟩
  obtain ⟨pre, hpre⟩ := hmain.1
  rw [hpre,
    (show c4SectionTail =
      "\nПОСЛЕДНИЕ СООБЩЕНИЯ:\n\nРЕЛЕВАНТНЫЕ ОТРЫВКИ:\n\nПОХОЖИЕ СООБЩЕНИЯ:\n\n\n"
        ++ "ВОПРОС: " from rfl),
    String.append_assoc]
  exact strEndsWith_of_append2 _ _ _ _ rfl

/-- C4 counterexample to the claim as stated: on the empty store — all
three sources return empty — the assembled prompt still contains every
source-section label with an empty body after it (the three labels sit
directly next to each other), because
`"\n".join([s for s in prompt_sections if s])` filters out only the empty
body strings, never the labels. -/
theorem c4_counterexample :
    ((buildContextForAi oW nowW ⟨[], []⟩ "s" 1 "hello" 20 3 none "").1).prompt =
      "ЗАПРОШЕННЫЙ ПЕРИОД: неделя\nВСЕГО СООБЩЕНИЙ ЗА ПЕРИОД: 0\n\nПОСЛЕДНИЕ СООБЩЕНИЯ:\n\nРЕЛЕВАНТНЫЕ ОТРЫВКИ:\n\nПОХОЖИЕ СООБЩЕНИЯ:\n\n\nВОПРОС: hello\nОТВЕТ:" ∧
    strIn "ПОСЛЕДНИЕ СООБЩЕНИЯ:\n\nРЕЛЕВАНТНЫЕ ОТРЫВКИ:"
      ((buildContextForAi oW nowW ⟨[], []⟩ "s" 1 "hello" 20 3 none "").1).prompt = true ∧
    ((buildContextForAi oW nowW ⟨[], []⟩ "s" 1 "hello" 20 3 none "").1).sections =
      ⟨0, 0, 0, 0, false⟩ := by decide

end ProjectX
